import Mathlib

/-!
LiFi: a one-byte optical link (on-off keying).

A shallow embedding of `src/receive/main/receive.c` and
`src/transmit/main/transmit.c`, followed by the properties of the link
protocol proved on it.

Modelling conventions.

* `vTaskDelay(pdMS_TO_TICKS(ms))` advances a millisecond clock by exactly `ms`;
  every other statement takes no time.
* The ADC is a function of the conversion index and of the time at which the
  conversion is made, so both "the n-th sample" and "the light at time t" can
  be expressed.
* `uint32_t` and `uint8_t` arithmetic is `Nat` arithmetic reduced modulo
  `2 ^ 32` and `2 ^ 8`; `int` arithmetic is `Int` arithmetic wrapped to 32 bits.
* A `while` loop with no static bound takes a fuel argument (the number of
  loop tests it may perform) and yields `none` when the fuel runs out.
* `ESP_LOGx` diagnostics are not part of the model.
-/

namespace LiFi

/-! ## Machine integers -/

/-- Value of an `int` expression: wrap into the range `-2^31 .. 2^31 - 1`. -/
def toInt32 (x : Int) : Int := (x + 2147483648) % 4294967296 - 2147483648

/-- Conversion `(uint32_t) x` of an `int`. -/
def toUInt32 (x : Int) : Nat := (x % 4294967296).toNat

/-! ## Receiver (`receive.c`) -/

namespace Receive

def LIGHT_THRESHOLD : Nat := 700
def BIT_DURATION_MS : Nat := 100
def START_FRAME_MIN_MS : Nat := 600
def START_FRAME_MAX_MS : Nat := 800
def STOP_FRAME_MIN_MS : Nat := 900
def STOP_FRAME_MAX_MS : Nat := 1100
def SAMPLE_INTERVAL_MS : Nat := 10

/-- The light sensor as the receiver meets it: `env i t` is the raw value
returned by ADC conversion number `i` when it is made at time `t` (ms). -/
abbrev Sensor := Nat → Nat → Int

/-- Receiver state: the clock in ms, the number of ADC conversions made so far
and the characters written to the host with `printf`. -/
structure RxState where
  now : Nat
  reads : Nat
  out : List Char
deriving DecidableEq, Repr

/-- The statement `vTaskDelay(pdMS_TO_TICKS(ms))`. -/
def vTaskDelay (ms : Nat) (s : RxState) : RxState :=
  { s with now := s.now + ms }

/-- One `adc_oneshot_read`: the next conversion, made now. -/
def adc_oneshot_read (env : Sensor) (s : RxState) : Int × RxState :=
  (env s.reads s.now, { s with reads := s.reads + 1 })

/-- The `for (i = 0; i < 10; i++)` loop of `read_light_sensor`, with `n`
iterations left. -/
def read_light_sensor_loop (env : Sensor) : Nat → Int → RxState → Int × RxState
  | 0, adc_reading, s => (adc_reading, s)
  | n + 1, adc_reading, s =>
    let r := adc_oneshot_read env s
    read_light_sensor_loop env n (toInt32 (adc_reading + r.1)) r.2

/-- `read_light_sensor` (receive.c:44-56): ten conversions, summed, divided by
ten with truncation, converted to `uint32_t`. -/
def read_light_sensor (env : Sensor) (s : RxState) : Nat × RxState :=
  let r := read_light_sensor_loop env 10 0 s
  (toUInt32 (Int.tdiv r.1 10), r.2)

/-- `is_light_on` (receive.c:61-63). -/
def is_light_on (env : Sensor) (s : RxState) : Bool × RxState :=
  let r := read_light_sensor env s
  (decide (r.1 > LIGHT_THRESHOLD), r.2)

/-- The `while (elapsed < timeout_ms)` loop of `wait_for_light_state`
(receive.c:70-76). The first argument is the fuel. -/
def wait_for_light_state_loop (env : Sensor) (expected_state : Bool) (timeout_ms : Nat) :
    Nat → Nat → RxState → Option (Bool × RxState)
  | 0, _, _ => none
  | fuel + 1, elapsed, s =>
    if elapsed < timeout_ms then
      let r := is_light_on env s
      if r.1 == expected_state then some (true, r.2)
      else
        wait_for_light_state_loop env expected_state timeout_ms fuel
          ((elapsed + SAMPLE_INTERVAL_MS) % 4294967296) (vTaskDelay SAMPLE_INTERVAL_MS r.2)
    else some (false, s)

/-- `wait_for_light_state` (receive.c:68-78). -/
def wait_for_light_state (fuel : Nat) (env : Sensor) (expected_state : Bool)
    (timeout_ms : Nat) (s : RxState) : Option (Bool × RxState) :=
  wait_for_light_state_loop env expected_state timeout_ms fuel 0 s

/-- The `while (is_light_on() == state)` loop of `measure_light_duration`
(receive.c:85-91). The first argument is the fuel. -/
def measure_light_duration_loop (env : Sensor) (state : Bool) :
    Nat → Nat → RxState → Option (Nat × RxState)
  | 0, _, _ => none
  | fuel + 1, duration, s =>
    let r := is_light_on env s
    if r.1 == state then
      let s1 := vTaskDelay SAMPLE_INTERVAL_MS r.2
      let duration1 := (duration + SAMPLE_INTERVAL_MS) % 4294967296
      if duration1 > 2000 then some (duration1, s1)
      else measure_light_duration_loop env state fuel duration1 s1
    else some (duration, r.2)

/-- `measure_light_duration` (receive.c:83-93). -/
def measure_light_duration (fuel : Nat) (env : Sensor) (state : Bool) (s : RxState) :
    Option (Nat × RxState) :=
  measure_light_duration_loop env state fuel 0 s

/-- The test of receive.c:112 on the measured duration. -/
def start_frame_test (on_duration : Nat) : Bool :=
  decide (on_duration ≥ START_FRAME_MIN_MS) && decide (on_duration ≤ START_FRAME_MAX_MS)

/-- The test of receive.c:137 on the measured duration. -/
def stop_frame_test (on_duration : Nat) : Bool :=
  decide (on_duration ≥ STOP_FRAME_MIN_MS) && decide (on_duration ≤ STOP_FRAME_MAX_MS)

/-- `detect_start_frame` (receive.c:98-118). -/
def detect_start_frame (fuel : Nat) (env : Sensor) (s : RxState) : Option (Bool × RxState) :=
  match wait_for_light_state fuel env true 10000 s with
  | none => none
  | some (false, s1) => some (false, s1)
  | some (true, s1) =>
    match measure_light_duration fuel env true s1 with
    | none => none
    | some (on_duration, s2) => some (start_frame_test on_duration, s2)

/-- `detect_stop_frame` (receive.c:123-143). -/
def detect_stop_frame (fuel : Nat) (env : Sensor) (s : RxState) : Option (Bool × RxState) :=
  match wait_for_light_state fuel env true 2000 s with
  | none => none
  | some (false, s1) => some (false, s1)
  | some (true, s1) =>
    match measure_light_duration fuel env true s1 with
    | none => none
    | some (on_duration, s2) => some (stop_frame_test on_duration, s2)

/-- `read_bit` (receive.c:148-162). The second sensor read only feeds the
log line. -/
def read_bit (env : Sensor) (s : RxState) : Nat × RxState :=
  let s1 := vTaskDelay (BIT_DURATION_MS / 2) s
  let bit_value := is_light_on env s1
  let light_value := read_light_sensor env bit_value.2
  let s2 := vTaskDelay (BIT_DURATION_MS / 2) light_value.2
  (if bit_value.1 then 1 else 0, s2)

/-- The `for (i = 7; i >= 0; i--)` loop of `read_byte`: the argument `n` is
`i + 1`, the number of bits still to read. -/
def read_byte_loop (env : Sensor) : Nat → Nat → RxState → Nat × RxState
  | 0, byte, s => (byte, s)
  | i + 1, byte, s =>
    let r := read_bit env s
    read_byte_loop env i ((byte ||| (r.1 <<< i)) % 256) r.2

/-- `read_byte` (receive.c:167-179). -/
def read_byte (env : Sensor) (s : RxState) : Nat × RxState :=
  read_byte_loop env 8 0 s

/-- The characters `printf("%02X", v)` writes: upper-case hexadecimal, padded
with zeros on the left to two characters. -/
def format_02X (v : Nat) : List Char :=
  List.leftpad 2 '0' ((Nat.toDigits 16 v).map Char.toUpper)

/-- The statement `printf("%02X\n", received_byte)` (receive.c:202). -/
def printf_02X_nl (received_byte : Nat) (s : RxState) : RxState :=
  { s with out := s.out ++ (format_02X received_byte ++ [Char.ofNat 10]) }

/-- One iteration of the `while (1)` loop of `app_main` (receive.c:190-207). -/
def app_main_body (fuel : Nat) (env : Sensor) (s : RxState) : Option RxState :=
  match detect_start_frame fuel env s with
  | none => none
  | some (false, s1) => some (vTaskDelay 500 s1)
  | some (true, s1) =>
    let s2 := vTaskDelay BIT_DURATION_MS s1
    let r := read_byte env s2
    let s3 := vTaskDelay BIT_DURATION_MS r.2
    match detect_stop_frame fuel env s3 with
    | none => none
    | some (false, s4) => some (vTaskDelay 500 s4)
    | some (true, s4) => some (vTaskDelay 500 (printf_02X_nl r.1 s4))

/-- The first `n` iterations of the `while (1)` loop of `app_main`. -/
def app_main (fuel : Nat) (env : Sensor) : Nat → RxState → Option RxState
  | 0, s => some s
  | n + 1, s =>
    match app_main_body fuel env s with
    | none => none
    | some s1 => app_main fuel env n s1

end Receive

/-! ## Transmitter (`transmit.c`) -/

namespace Transmit

def BIT_DURATION_MS : Nat := 100
def START_FRAME_MS : Nat := 700
def STOP_FRAME_MS : Nat := 1000

/-- Transmitter state: the level last written to `LED_PIN` and, for every
`vTaskDelay` made so far, the level held and the time it was held (ms). -/
structure TxState where
  level : Nat
  trace : List (Nat × Nat)
deriving DecidableEq, Repr

/-- The statement `gpio_set_level(LED_PIN, level)`. -/
def gpio_set_level (level : Nat) (s : TxState) : TxState :=
  { s with level := level }

/-- The statement `vTaskDelay(pdMS_TO_TICKS(ms))`: the current level is held
for `ms`. -/
def vTaskDelay (ms : Nat) (s : TxState) : TxState :=
  { s with trace := s.trace ++ [(s.level, ms)] }

/-- `transmit_start_frame` (transmit.c:20-23). -/
def transmit_start_frame (s : TxState) : TxState :=
  vTaskDelay START_FRAME_MS (gpio_set_level 1 s)

/-- `transmit_stop_frame` (transmit.c:25-28). -/
def transmit_stop_frame (s : TxState) : TxState :=
  vTaskDelay STOP_FRAME_MS (gpio_set_level 1 s)

/-- `transmit_bit` (transmit.c:30-33). -/
def transmit_bit (bit : Nat) (s : TxState) : TxState :=
  vTaskDelay BIT_DURATION_MS (gpio_set_level bit s)

/-- The `for (i = 7; i >= 0; i--)` loop of `transmit_byte`: the argument `n`
is `i + 1`. -/
def transmit_byte_loop (byte : Nat) : Nat → TxState → TxState
  | 0, s => s
  | i + 1, s => transmit_byte_loop byte i (transmit_bit ((byte >>> i) &&& 1) s)

/-- `transmit_byte` (transmit.c:35-39). -/
def transmit_byte (byte : Nat) (s : TxState) : TxState :=
  transmit_byte_loop byte 8 s

/-- One iteration of the `while (1)` loop of `app_main` (transmit.c:67-86),
where `uart_read_bytes` returned `len` and stored `enc_byte`. -/
def app_main_body (len : Int) (enc_byte : Nat) (s : TxState) : TxState :=
  if len = 1 then
    let s1 := transmit_start_frame s
    let s2 := gpio_set_level 0 s1
    let s3 := vTaskDelay BIT_DURATION_MS s2
    let s4 := transmit_byte enc_byte s3
    let s5 := gpio_set_level 0 s4
    let s6 := vTaskDelay BIT_DURATION_MS s5
    let s7 := transmit_stop_frame s6
    gpio_set_level 0 s7
  else s

/-- The call `uart_read_bytes(UART_NUM, &enc_byte, 1, portMAX_DELAY)` of
transmit.c:68 when the host delivers the next byte `wait` ms later: the task
blocks that long, the pin keeping its level. -/
def uart_read_bytes (wait : Nat) (s : TxState) : TxState :=
  { s with trace := s.trace ++ [(s.level, wait)] }

/-- The `while (1)` loop of `app_main` (transmit.c:67-86) fed by the host with
the bytes of `input`, each paired with the time the transmitter waits for it. -/
def app_main : List (Nat × Nat) → TxState → TxState
  | [], s => s
  | (wait, enc_byte) :: rest, s =>
    app_main rest (app_main_body 1 enc_byte (uart_read_bytes wait s))

end Transmit

/-! ## The optical channel -/

/-- Level of the pin at time `t` (ms after the first hold began) for a trace of
held levels followed by the level `final` that is left on the pin. -/
def levelAt : List (Nat × Nat) → Nat → Nat → Nat
  | [], final, _ => final
  | (lvl, hold) :: rest, final, t =>
    if t < hold then lvl else levelAt rest final (t - hold)

/-- Time (ms after the first hold began) at which hold number `k` of a trace
begins. -/
def holdStart (tr : List (Nat × Nat)) (k : Nat) : Nat := ((tr.take k).map Prod.snd).sum

/-- The transmitter before a frame: LED off, nothing held yet. -/
def txIdle : Transmit.TxState := { level := 0, trace := [] }

/-- The transmitter after one cycle of its loop for the byte `b`. -/
def txFrame (b : Nat) : Transmit.TxState := Transmit.app_main_body 1 b txIdle

/-- The light of an isolated frame for `b` whose START pulse rises at time
`R`: off before `R`, then the levels the transmitter holds, then the level it
leaves. The LED is lit when the pin level is not zero. -/
def frameLight (b R : Nat) (t : Nat) : Bool :=
  if t < R then false else levelAt (txFrame b).trace (txFrame b).level (t - R) != 0

/-- A noise-free sensor for the light `light`: every conversion is a 12-bit
value, above the threshold exactly when the light is on at that time. -/
def NoiseFree (env : Receive.Sensor) (light : Nat → Bool) : Prop :=
  ∀ i t, 0 ≤ env i t ∧ env i t ≤ 4095 ∧ (light t = true ↔ 700 < env i t)

/-- An LED/LDR pair that reads 3000 in the light and 100 in the dark. -/
def idealSensor (light : Nat → Bool) : Receive.Sensor :=
  fun _ t => if light t then 3000 else 100

/-- State of the receiver at the `j`-th poll (counted from 0) of a polling loop
entered in state `s`: each earlier poll made ten conversions and was followed
by a 10 ms delay. -/
def pollState (s : Receive.RxState) (j : Nat) : Receive.RxState :=
  { s with now := s.now + 10 * j, reads := s.reads + 10 * j }

/-- State in which a polling loop entered in state `s` is left when its `k`-th
poll (counted from 0) ends it: `k` delays and `k + 1` polls were made. -/
def pollExit (s : Receive.RxState) (k : Nat) : Receive.RxState :=
  { s with now := s.now + 10 * k, reads := s.reads + 10 * (k + 1) }

/-- The `j`-th sample (counted from 0) that a polling loop entered in state `s`
obtains from `is_light_on`. -/
def pollSample (env : Receive.Sensor) (s : Receive.RxState) (j : Nat) : Bool :=
  (Receive.is_light_on env (pollState s j)).1

/-- The shape shared by `detect_start_frame` and `detect_stop_frame`: wait for
ON within `T`, then measure the ON duration and apply `test` to it. -/
def detect_frame (test : Nat → Bool) (T fuel : Nat) (env : Receive.Sensor)
    (s : Receive.RxState) : Option (Bool × Receive.RxState) :=
  match Receive.wait_for_light_state fuel env true T s with
  | none => none
  | some (false, s1) => some (false, s1)
  | some (true, s1) =>
    match Receive.measure_light_duration fuel env true s1 with
    | none => none
    | some (on_duration, s2) => some (test on_duration, s2)

/-- The values returned by `n` successive calls of `read_bit` from state `s`,
in the order of the calls. -/
def bitSamples (env : Receive.Sensor) : Nat → Receive.RxState → List Nat
  | 0, _ => []
  | n + 1, s => (Receive.read_bit env s).1 :: bitSamples env n (Receive.read_bit env s).2

/-- The fold that `read_byte_loop` makes of the bits it reads: `n` is `i + 1`
and the list holds the values of the `read_bit` calls still to come. -/
def foldBits : Nat → Nat → List Nat → Nat
  | i + 1, byte, x :: xs => foldBits i ((byte ||| (x <<< i)) % 256) xs
  | _, byte, _ => byte

/-- The levels that `transmit_byte b` writes to the pin, in the order it holds
them. -/
def drivenLevels (b : Nat) : List Nat :=
  ((Transmit.transmit_byte b txIdle).trace).map Prod.fst

/-- Lengths (ms) of the maximal runs of consecutive lit holds in a trace that
has dark on both sides; `run` is the length of the lit run in progress. -/
def onRuns : List (Nat × Nat) → Nat → List Nat
  | [], run => if run = 0 then [] else [run]
  | (lvl, hold) :: rest, run =>
    if lvl != 0 then onRuns rest (run + hold)
    else if run = 0 then onRuns rest 0 else run :: onRuns rest 0

/-- The data phase of the frame for `b`: the holds made by `transmit_byte`. -/
def dataPhase (b : Nat) : List (Nat × Nat) := (Transmit.transmit_byte b txIdle).trace

/-- State in which the `k`-th `read_bit` call (counted from 0) of a `read_byte`
entered in state `s` polls the light: 50 ms into its slot, after the two
sensor reads of each earlier call. -/
def bitState (s : Receive.RxState) (k : Nat) : Receive.RxState :=
  { s with now := s.now + 100 * k + 50, reads := s.reads + 20 * k }

/-- The `is_light_on` sample of the `k`-th `read_bit` call, as the value 0 or 1
that `read_bit` returns. -/
def bitSampleAt (env : Receive.Sensor) (s : Receive.RxState) (k : Nat) : Nat :=
  if (Receive.is_light_on env (bitState s k)).1 then 1 else 0

/-- The ten raw readings that a `read_light_sensor` entered in state `s`
obtains, in order. -/
def rawReadings (env : Receive.Sensor) (s : Receive.RxState) : List Int :=
  (List.range 10).map (fun i => env (s.reads + i) s.now)

/-- The characters a hexadecimal digit may be: 0-9 and upper-case A-F. -/
def upperHexDigits : List Char :=
  ['0', '1', '2', '3', '4', '5', '6', '7', '8', '9', 'A', 'B', 'C', 'D', 'E', 'F']

/-- The upper-case hexadecimal digit of a value below 16. -/
def upperHexDigit (n : Nat) : Char :=
  if n < 10 then Char.ofNat (48 + n) else Char.ofNat (55 + n)

/-- Value of an upper-case hexadecimal digit, as a host parsing base 16 takes
it. -/
def hexValue (c : Char) : Nat :=
  if c.toNat < 58 then c.toNat - 48 else c.toNat - 55

/-- The sensor `env` with the conversions of the diagnostic reads of
`read_bit` (those whose index is 10 to 19 modulo 20, for a `read_byte` entered
with a multiple of 20 conversions made) replaced by the full-scale value. -/
def diagOverride (env : Receive.Sensor) : Receive.Sensor :=
  fun i t => if i % 20 < 10 then env i t else 4095

/-- The transmitter after it has waited `R` ms for the byte `b1`, sent it, and
sent `b2`, which the host had ready (no wait). -/
def txPair (b1 b2 R : Nat) : Transmit.TxState :=
  Transmit.app_main [(R, b1), (0, b2)] txIdle

/-- The light of two back-to-back frames, the first START pulse rising at time
`R`. -/
def pairLight (b1 b2 R : Nat) (t : Nat) : Bool :=
  levelAt (txPair b1 b2 R).trace (txPair b1 b2 R).level t != 0

end LiFi

/-! ## Lemmas on the receiver -/

namespace LiFi

open Receive

theorem read_light_sensor_loop_state (env : Sensor) (n : Nat) (acc : Int) (s : RxState) :
    (read_light_sensor_loop env n acc s).2 = { s with reads := s.reads + n } := by
  induction n generalizing acc s with
  | zero => simp [read_light_sensor_loop]
  | succ n ih =>
    simp only [read_light_sensor_loop, ih, adc_oneshot_read]
    congr 1
    omega

theorem read_light_sensor_state (env : Sensor) (s : RxState) :
    (read_light_sensor env s).2 = { s with reads := s.reads + 10 } := by
  simp [read_light_sensor, read_light_sensor_loop_state]

theorem is_light_on_state (env : Sensor) (s : RxState) :
    (is_light_on env s).2 = { s with reads := s.reads + 10 } := by
  simp [is_light_on, read_light_sensor_state]

theorem pollState_zero (s : RxState) : pollState s 0 = s := by
  simp [pollState]

theorem pollState_succ (env : Sensor) (s : RxState) (j : Nat) :
    pollState (vTaskDelay SAMPLE_INTERVAL_MS (is_light_on env s).2) j = pollState s (j + 1) := by
  simp only [pollState, vTaskDelay, is_light_on_state, SAMPLE_INTERVAL_MS]
  congr 1 <;> omega

theorem pollSample_zero (env : Sensor) (s : RxState) :
    (is_light_on env s).1 = pollSample env s 0 := by
  simp [pollSample, pollState_zero]

theorem pollSample_succ (env : Sensor) (s : RxState) (j : Nat) :
    pollSample env (vTaskDelay SAMPLE_INTERVAL_MS (is_light_on env s).2) j
      = pollSample env s (j + 1) := by
  simp [pollSample, pollState_succ]

theorem pollExit_zero (env : Sensor) (s : RxState) : (is_light_on env s).2 = pollExit s 0 := by
  simp [pollExit, is_light_on_state]

theorem pollExit_succ (env : Sensor) (s : RxState) (k : Nat) :
    pollExit (vTaskDelay SAMPLE_INTERVAL_MS (is_light_on env s).2) k = pollExit s (k + 1) := by
  simp only [pollExit, vTaskDelay, is_light_on_state, SAMPLE_INTERVAL_MS]
  congr 1 <;> omega

/-- The wait loop when poll `k` is the first that matches: it answers `true`
at that poll. -/
theorem wait_loop_found (env : Sensor) (e : Bool) (T : Nat) (hT : T ≤ 4294967296) :
    ∀ (k fuel elapsed : Nat) (s : RxState), k < fuel → elapsed + 10 * k < T →
      (∀ j, j < k → pollSample env s j ≠ e) → pollSample env s k = e →
      wait_for_light_state_loop env e T fuel elapsed s = some (true, pollExit s k) := by
  intro k
  induction k with
  | zero =>
    intro fuel elapsed s hf hel _ hk
    obtain ⟨f, rfl⟩ : ∃ f, fuel = f + 1 := ⟨fuel - 1, by omega⟩
    have h1 : elapsed < T := by omega
    simp [wait_for_light_state_loop, h1, pollSample_zero, hk, pollExit_zero]
  | succ k ih =>
    intro fuel elapsed s hf hel hne hk
    obtain ⟨f, rfl⟩ : ∃ f, fuel = f + 1 := ⟨fuel - 1, by omega⟩
    have h1 : elapsed < T := by omega
    have h0 : pollSample env s 0 ≠ e := hne 0 (by omega)
    have hmod : (elapsed + SAMPLE_INTERVAL_MS) % 4294967296 = elapsed + 10 := by
      simp only [SAMPLE_INTERVAL_MS]; omega
    simp only [wait_for_light_state_loop, h1, if_true, pollSample_zero, beq_iff_eq, h0, if_false,
      hmod]
    rw [ih f (elapsed + 10) _ (by omega) (by omega), pollExit_succ]
    · intro j hj
      rw [pollSample_succ]
      exact hne (j + 1) (by omega)
    · rw [pollSample_succ]
      exact hk

/-- The wait loop when none of its `n` polls matches: it answers `false`
after `n` polls and `n` delays. -/
theorem wait_loop_timeout (env : Sensor) (e : Bool) (T : Nat) (hT : T + 10 ≤ 4294967296) :
    ∀ (n fuel elapsed : Nat) (s : RxState), n < fuel → T ≤ elapsed + 10 * n →
      (∀ j, j < n → elapsed + 10 * j < T) →
      (∀ j, j < n → pollSample env s j ≠ e) →
      wait_for_light_state_loop env e T fuel elapsed s = some (false, pollState s n) := by
  intro n
  induction n with
  | zero =>
    intro fuel elapsed s hf hel _ _
    obtain ⟨f, rfl⟩ : ∃ f, fuel = f + 1 := ⟨fuel - 1, by omega⟩
    have h1 : ¬ elapsed < T := by omega
    simp [wait_for_light_state_loop, h1, pollState_zero]
  | succ n ih =>
    intro fuel elapsed s hf hel hlt hne
    obtain ⟨f, rfl⟩ : ∃ f, fuel = f + 1 := ⟨fuel - 1, by omega⟩
    have h1 : elapsed < T := by simpa using hlt 0 (by omega)
    have h0 : pollSample env s 0 ≠ e := hne 0 (by omega)
    have hmod : (elapsed + SAMPLE_INTERVAL_MS) % 4294967296 = elapsed + 10 := by
      simp only [SAMPLE_INTERVAL_MS]; omega
    simp only [wait_for_light_state_loop, h1, if_true, pollSample_zero, beq_iff_eq, h0, if_false,
      hmod]
    rw [ih f (elapsed + 10) _ (by omega) (by omega), pollState_succ]
    · intro j hj
      have := hlt (j + 1) (by omega)
      omega
    · intro j hj
      rw [pollSample_succ]
      exact hne (j + 1) (by omega)

/-- The measuring loop when polls `0 .. n-1` show the state and poll `n` does
not: it returns the `10 * n` ms it has delayed. -/
theorem measure_loop_change (env : Sensor) (st : Bool) :
    ∀ (n fuel duration : Nat) (s : RxState), n < fuel → duration + 10 * n ≤ 2000 →
      (∀ j, j < n → pollSample env s j = st) → pollSample env s n ≠ st →
      measure_light_duration_loop env st fuel duration s
        = some (duration + 10 * n, pollExit s n) := by
  intro n
  induction n with
  | zero =>
    intro fuel duration s hf _ _ hn
    obtain ⟨f, rfl⟩ : ∃ f, fuel = f + 1 := ⟨fuel - 1, by omega⟩
    simp [measure_light_duration_loop, pollSample_zero, hn, pollExit_zero]
  | succ n ih =>
    intro fuel duration s hf hd heq hn
    obtain ⟨f, rfl⟩ : ∃ f, fuel = f + 1 := ⟨fuel - 1, by omega⟩
    have h0 : pollSample env s 0 = st := heq 0 (by omega)
    have hmod : (duration + SAMPLE_INTERVAL_MS) % 4294967296 = duration + 10 := by
      simp only [SAMPLE_INTERVAL_MS]; omega
    have h2 : ¬ duration + 10 > 2000 := by omega
    simp only [measure_light_duration_loop, pollSample_zero, h0, beq_self_eq_true, if_true, hmod,
      h2, if_false]
    rw [ih f (duration + 10) _ (by omega) (by omega), pollExit_succ]
    · congr 2; omega
    · intro j hj
      rw [pollSample_succ]
      exact heq (j + 1) (by omega)
    · rw [pollSample_succ]
      exact hn

/-- The measuring loop when all of its `n` polls show the state and the `n`-th
delay takes the duration past 2000: it stops there. -/
theorem measure_loop_ceiling (env : Sensor) (st : Bool) :
    ∀ (n fuel duration : Nat) (s : RxState), n < fuel + 1 → 0 < n →
      duration + 10 * n > 2000 → duration + 10 * n ≤ 2010 →
      (∀ j, j < n → pollSample env s j = st) →
      measure_light_duration_loop env st fuel duration s
        = some (duration + 10 * n, pollState s n) := by
  intro n
  induction n with
  | zero => intro fuel duration s _ h; omega
  | succ n ih =>
    intro fuel duration s hf _ hgt hle heq
    obtain ⟨f, rfl⟩ : ∃ f, fuel = f + 1 := ⟨fuel - 1, by omega⟩
    have h0 : pollSample env s 0 = st := heq 0 (by omega)
    have hmod : (duration + SAMPLE_INTERVAL_MS) % 4294967296 = duration + 10 := by
      simp only [SAMPLE_INTERVAL_MS]; omega
    simp only [measure_light_duration_loop, pollSample_zero, h0, beq_self_eq_true, if_true, hmod]
    by_cases hn : n = 0
    · subst hn
      have h2 : duration + 10 > 2000 := by omega
      simp only [h2, if_true]
      rw [← pollState_succ env s 0, pollState_zero]
    · have h2 : ¬ duration + 10 > 2000 := by omega
      simp only [h2, if_false]
      rw [ih f (duration + 10) _ (by omega) (by omega) (by omega) (by omega), pollState_succ]
      · congr 2; omega
      · intro j hj
        rw [pollSample_succ]
        exact heq (j + 1) (by omega)

/-- With a timeout that cannot wrap the counter and fuel for every loop test,
the wait loop returns, and it writes nothing. -/
theorem wait_loop_total (env : Sensor) (e : Bool) (T : Nat) (hT : T + 10 ≤ 4294967296) :
    ∀ (fuel elapsed : Nat) (s : RxState), 0 < fuel → T + 10 ≤ 10 * fuel + elapsed →
      ∃ r, wait_for_light_state_loop env e T fuel elapsed s = some r ∧ r.2.out = s.out := by
  intro fuel
  induction fuel with
  | zero => intro elapsed s h; omega
  | succ f ih =>
    intro elapsed s _ hf
    by_cases h1 : elapsed < T
    · by_cases h0 : (is_light_on env s).1 = e
      · exact ⟨(true, (is_light_on env s).2), by
          simp [wait_for_light_state_loop, h1, h0], by simp [is_light_on_state]⟩
      · have hmod : (elapsed + SAMPLE_INTERVAL_MS) % 4294967296 = elapsed + 10 := by
          simp only [SAMPLE_INTERVAL_MS]; omega
        obtain ⟨r, hr, ho⟩ := ih (elapsed + 10)
          (vTaskDelay SAMPLE_INTERVAL_MS (is_light_on env s).2) (by omega) (by omega)
        refine ⟨r, ?_, ?_⟩
        · simp only [wait_for_light_state_loop, h1, if_true, beq_iff_eq, h0, if_false, hmod]
          exact hr
        · rw [ho]; simp [vTaskDelay, is_light_on_state]
    · exact ⟨(false, s), by simp [wait_for_light_state_loop, h1], rfl⟩

/-- With fuel for 201 polls the measuring loop returns; the duration it returns
is at most 2010, and it writes nothing. -/
theorem measure_loop_total (env : Sensor) (st : Bool) :
    ∀ (fuel duration : Nat) (s : RxState), duration ≤ 2000 → 2001 ≤ 10 * fuel + duration →
      ∃ r, measure_light_duration_loop env st fuel duration s = some r ∧
        duration ≤ r.1 ∧ r.1 ≤ 2010 ∧ r.2.out = s.out := by
  intro fuel
  induction fuel with
  | zero => intro duration s h1 h2; omega
  | succ f ih =>
    intro duration s hd hf
    by_cases h0 : (is_light_on env s).1 = st
    · have hmod : (duration + SAMPLE_INTERVAL_MS) % 4294967296 = duration + 10 := by
        simp only [SAMPLE_INTERVAL_MS]; omega
      by_cases h2 : duration + 10 > 2000
      · refine ⟨(duration + 10, vTaskDelay SAMPLE_INTERVAL_MS (is_light_on env s).2), ?_, ?_⟩
        · simp [measure_light_duration_loop, h0, hmod, h2]
        · refine ⟨by simp, by simp only; omega, ?_⟩
          simp [vTaskDelay, is_light_on_state]
      · obtain ⟨r, hr, hlo, hhi, ho⟩ := ih (duration + 10)
          (vTaskDelay SAMPLE_INTERVAL_MS (is_light_on env s).2) (by omega) (by omega)
        refine ⟨r, ?_, by omega, hhi, ?_⟩
        · simp only [measure_light_duration_loop, h0, beq_self_eq_true, if_true, hmod, h2,
            if_false]
          exact hr
        · rw [ho]; simp [vTaskDelay, is_light_on_state]
    · exact ⟨(duration, (is_light_on env s).2), by simp [measure_light_duration_loop, h0],
        by simp, by simp only; omega, by simp [is_light_on_state]⟩

theorem wait_for_light_state_total (fuel : Nat) (env : Sensor) (e : Bool) (T : Nat)
    (s : RxState) (hT : T + 10 ≤ 4294967296) (hf : T + 10 ≤ 10 * fuel) :
    ∃ r, wait_for_light_state fuel env e T s = some r ∧ r.2.out = s.out := by
  unfold wait_for_light_state
  exact wait_loop_total env e T hT fuel 0 s (by omega) (by omega)

theorem measure_light_duration_total (fuel : Nat) (env : Sensor) (st : Bool) (s : RxState)
    (hf : 201 ≤ fuel) :
    ∃ r, measure_light_duration fuel env st s = some r ∧ r.1 ≤ 2010 ∧ r.2.out = s.out := by
  unfold measure_light_duration
  obtain ⟨r, hr, _, hhi, ho⟩ := measure_loop_total env st fuel 0 s (by omega) (by omega)
  exact ⟨r, hr, hhi, ho⟩

theorem detect_start_frame_eq (fuel : Nat) (env : Sensor) (s : RxState) :
    detect_start_frame fuel env s = detect_frame start_frame_test 10000 fuel env s := rfl

theorem detect_stop_frame_eq (fuel : Nat) (env : Sensor) (s : RxState) :
    detect_stop_frame fuel env s = detect_frame stop_frame_test 2000 fuel env s := rfl

/-- What a marker detector returns, in terms of the two primitives. -/
theorem detect_frame_spec (test : Nat → Bool) (T fuel : Nat) (env : Sensor) (s : RxState)
    (hT : T + 10 ≤ 4294967296) (hf : T + 10 ≤ 10 * fuel) (hf2 : 201 ≤ fuel) :
    ∃ r, detect_frame test T fuel env s = some r ∧ r.2.out = s.out ∧
      (r.1 = true ↔ ∃ s1 d s2, wait_for_light_state fuel env true T s = some (true, s1) ∧
        measure_light_duration fuel env true s1 = some (d, s2) ∧ test d = true) := by
  obtain ⟨⟨w, s1⟩, hw, hwo⟩ := wait_for_light_state_total fuel env true T s hT hf
  cases w with
  | false =>
    refine ⟨(false, s1), by simp [detect_frame, hw], hwo, ?_⟩
    simp [hw]
  | true =>
    obtain ⟨⟨d, s2⟩, hm, _, hmo⟩ := measure_light_duration_total fuel env true s1 hf2
    refine ⟨(test d, s2), by simp [detect_frame, hw, hm], ?_, ?_⟩
    · simp only at hmo hwo ⊢; rw [hmo, hwo]
    · simp [hw, hm]

/-! ## Lemmas on a noise-free sensor -/

theorem toInt32_of_range (x : Int) (h0 : 0 ≤ x) (h1 : x ≤ 40950) : toInt32 x = x := by
  unfold toInt32; omega

theorem read_light_sensor_loop_bounds (env : Sensor) (lo hi : Int) (hlo : 0 ≤ lo)
    (hhi : hi ≤ 4095) :
    ∀ (n : Nat) (acc : Int) (s : RxState), 0 ≤ acc → acc + 4095 * n ≤ 40950 →
      (∀ i, lo ≤ env i s.now ∧ env i s.now ≤ hi) →
      acc + lo * n ≤ (read_light_sensor_loop env n acc s).1 ∧
        (read_light_sensor_loop env n acc s).1 ≤ acc + hi * n := by
  intro n
  induction n with
  | zero => intro acc s _ _ _; simp [read_light_sensor_loop]
  | succ n ih =>
    intro acc s h0 h1 henv
    have hv := henv s.reads
    have hacc : toInt32 (acc + env s.reads s.now) = acc + env s.reads s.now := by
      apply toInt32_of_range <;> push_cast at h1 <;> omega
    simp only [read_light_sensor_loop, adc_oneshot_read, hacc]
    have := ih (acc + env s.reads s.now) { s with reads := s.reads + 1 } (by omega)
      (by push_cast at h1 ⊢; omega) henv
    push_cast
    constructor <;> nlinarith [this.1, this.2]

theorem is_light_on_of_bounds (env : Sensor) (s : RxState) :
    ((∀ i, 701 ≤ env i s.now ∧ env i s.now ≤ 4095) → (is_light_on env s).1 = true) ∧
    ((∀ i, 0 ≤ env i s.now ∧ env i s.now ≤ 700) → (is_light_on env s).1 = false) := by
  constructor
  · intro h
    have hb := read_light_sensor_loop_bounds env 701 4095 (by omega) (by omega) 10 0 s
      (by omega) (by norm_num) h
    simp only [is_light_on, read_light_sensor, toUInt32, LIGHT_THRESHOLD, gt_iff_lt,
      decide_eq_true_eq]
    generalize (read_light_sensor_loop env 10 0 s).1 = x at hb
    norm_num at hb
    rw [Int.tdiv_eq_ediv (by omega) (by omega)]
    omega
  · intro h
    have hb := read_light_sensor_loop_bounds env 0 700 (by omega) (by omega) 10 0 s
      (by omega) (by norm_num) h
    simp only [is_light_on, read_light_sensor, toUInt32, LIGHT_THRESHOLD, gt_iff_lt,
      decide_eq_false_iff_not]
    generalize (read_light_sensor_loop env 10 0 s).1 = x at hb
    norm_num at hb
    rw [Int.tdiv_eq_ediv (by omega) (by omega)]
    omega

/-- A noise-free sensor: `is_light_on` answers with the light at the time of
the poll. -/
theorem is_light_on_noiseFree (env : Sensor) (light : Nat → Bool) (h : NoiseFree env light)
    (s : RxState) : (is_light_on env s).1 = light s.now := by
  cases hl : light s.now with
  | true =>
    apply (is_light_on_of_bounds env s).1
    intro i
    have := h i s.now
    have h3 := this.2.2.1 hl
    omega
  | false =>
    apply (is_light_on_of_bounds env s).2
    intro i
    have := h i s.now
    have h3 : ¬ 700 < env i s.now := fun hc => by simpa [hl] using this.2.2.2 hc
    omega

theorem pollSample_noiseFree (env : Sensor) (light : Nat → Bool) (h : NoiseFree env light)
    (s : RxState) (j : Nat) : pollSample env s j = light (s.now + 10 * j) := by
  simp [pollSample, is_light_on_noiseFree env light h, pollState]

theorem idealSensor_noiseFree (light : Nat → Bool) : NoiseFree (idealSensor light) light := by
  intro i t
  cases h : light t <;> simp [idealSensor, h]

/-! ## Lemmas on the bit codec -/

theorem read_bit_state (env : Sensor) (s : RxState) :
    (read_bit env s).2 = { s with now := s.now + 100, reads := s.reads + 20 } := by
  simp only [read_bit, vTaskDelay, is_light_on_state, read_light_sensor_state, BIT_DURATION_MS]

theorem read_bit_value (env : Sensor) (s : RxState) :
    (read_bit env s).1 = if (is_light_on env (vTaskDelay 50 s)).1 then 1 else 0 := by
  simp [read_bit, BIT_DURATION_MS]

theorem read_byte_loop_value (env : Sensor) :
    ∀ (n byte : Nat) (s : RxState),
      (read_byte_loop env n byte s).1 = foldBits n byte (bitSamples env n s) := by
  intro n
  induction n with
  | zero => intro byte s; simp [read_byte_loop, foldBits]
  | succ n ih => intro byte s; simp only [read_byte_loop, bitSamples, foldBits, ih]

theorem read_byte_loop_state (env : Sensor) :
    ∀ (n byte : Nat) (s : RxState),
      (read_byte_loop env n byte s).2
        = { s with now := s.now + 100 * n, reads := s.reads + 20 * n } := by
  intro n
  induction n with
  | zero => intro byte s; simp [read_byte_loop]
  | succ n ih =>
    intro byte s
    simp only [read_byte_loop, ih, read_bit_state]
    congr 1 <;> omega

theorem read_byte_state (env : Sensor) (s : RxState) :
    (read_byte env s).2 = { s with now := s.now + 800, reads := s.reads + 160 } := by
  simp [read_byte, read_byte_loop_state]

theorem drivenLevels_eq (b : Nat) :
    drivenLevels b = [(b >>> 7) &&& 1, (b >>> 6) &&& 1, (b >>> 5) &&& 1, (b >>> 4) &&& 1,
      (b >>> 3) &&& 1, (b >>> 2) &&& 1, (b >>> 1) &&& 1, (b >>> 0) &&& 1] := rfl

theorem foldBits_drivenLevels (b : Nat) (hb : b < 256) : foldBits 8 0 (drivenLevels b) = b := by
  interval_cases b <;> rfl

theorem read_byte_of_samples (b : Nat) (env : Sensor) (s : RxState) (hb : b < 256)
    (h : bitSamples env 8 s = drivenLevels b) : (read_byte env s).1 = b := by
  rw [read_byte, read_byte_loop_value, h]
  exact foldBits_drivenLevels b hb

theorem bitSamples_noiseFree (env : Sensor) (light : Nat → Bool) (h : NoiseFree env light) :
    ∀ (n : Nat) (s : RxState),
      bitSamples env n s
        = (List.range n).map (fun i => if light (s.now + 100 * i + 50) then 1 else 0) := by
  intro n
  induction n with
  | zero => intro s; simp [bitSamples]
  | succ n ih =>
    intro s
    rw [bitSamples, ih, List.range_succ_eq_map, List.map_cons, List.map_map, read_bit_value,
      is_light_on_noiseFree env light h, read_bit_state]
    simp only [vTaskDelay, Nat.mul_zero, Nat.add_zero, List.cons.injEq, true_and]
    apply List.map_congr_left
    intro i _
    simp only [Function.comp, Nat.succ_eq_add_one]
    have : s.now + 100 + 100 * i + 50 = s.now + 100 * (i + 1) + 50 := by omega
    rw [this]

/-! ## Lemmas on the transmitter -/

theorem shiftRight_and_one (b k : Nat) : (b >>> k) &&& 1 = b / 2 ^ k % 2 := by
  rw [Nat.shiftRight_eq_div_pow, Nat.and_one_is_mod]

theorem transmit_app_main_body_trace (b : Nat) (s : Transmit.TxState) :
    (Transmit.app_main_body 1 b s).trace = s.trace ++
      [(1, 700), (0, 100), ((b >>> 7) &&& 1, 100), ((b >>> 6) &&& 1, 100),
        ((b >>> 5) &&& 1, 100), ((b >>> 4) &&& 1, 100), ((b >>> 3) &&& 1, 100),
        ((b >>> 2) &&& 1, 100), ((b >>> 1) &&& 1, 100), ((b >>> 0) &&& 1, 100),
        (0, 100), (1, 1000)] := by
  simp [Transmit.app_main_body, Transmit.transmit_start_frame, Transmit.transmit_stop_frame,
    Transmit.transmit_byte, Transmit.transmit_byte_loop, Transmit.transmit_bit,
    Transmit.vTaskDelay, Transmit.gpio_set_level, Transmit.BIT_DURATION_MS,
    Transmit.START_FRAME_MS, Transmit.STOP_FRAME_MS]

theorem transmit_app_main_body_level (b : Nat) (s : Transmit.TxState) :
    (Transmit.app_main_body 1 b s).level = 0 := rfl

/-! ## Lemmas on the light of an isolated frame -/

theorem txFrame_trace (b : Nat) :
    (txFrame b).trace =
      [(1, 700), (0, 100), ((b >>> 7) &&& 1, 100), ((b >>> 6) &&& 1, 100),
        ((b >>> 5) &&& 1, 100), ((b >>> 4) &&& 1, 100), ((b >>> 3) &&& 1, 100),
        ((b >>> 2) &&& 1, 100), ((b >>> 1) &&& 1, 100), ((b >>> 0) &&& 1, 100),
        (0, 100), (1, 1000)] := by
  rw [txFrame, transmit_app_main_body_trace]; rfl

theorem levelAt_hold (f : Nat) :
    ∀ (tr : List (Nat × Nat)) (k t : Nat) (l h : Nat), tr.get? k = some (l, h) →
      holdStart tr k ≤ t → t < holdStart tr k + h → levelAt tr f t = l := by
  intro tr
  induction tr with
  | nil => intro k t l h hk; simp at hk
  | cons seg rest ih =>
    intro k t l h hk h1 h2
    obtain ⟨l0, h0⟩ := seg
    cases k with
    | zero =>
      simp at hk
      obtain ⟨rfl, rfl⟩ := hk
      simp [holdStart] at h2
      simp [levelAt, h2]
    | succ k =>
      simp at hk
      simp [holdStart] at h1 h2
      have h3 : ¬ t < h0 := by omega
      simp only [levelAt, h3, if_false]
      exact ih k (t - h0) l h (by simpa using hk) (by simp [holdStart]; omega)
        (by simp [holdStart]; omega)

theorem levelAt_end (f : Nat) :
    ∀ (tr : List (Nat × Nat)) (t : Nat), holdStart tr tr.length ≤ t → levelAt tr f t = f := by
  intro tr
  induction tr with
  | nil => intro t _; rfl
  | cons seg rest ih =>
    intro t h1
    obtain ⟨l0, h0⟩ := seg
    simp [holdStart] at h1
    have h3 : ¬ t < h0 := by omega
    simp only [levelAt, h3, if_false]
    exact ih (t - h0) (by simp [holdStart]; omega)

theorem frameLight_before (b R t : Nat) (h : t < R) : frameLight b R t = false := by
  simp [frameLight, h]

theorem frameLight_eq (b R t : Nat) (h : R ≤ t) :
    frameLight b R t = (levelAt (txFrame b).trace 0 (t - R) != 0) := by
  have h3 : ¬ t < R := by omega
  have hl : (txFrame b).level = 0 := rfl
  simp only [frameLight, h3, if_false, hl, Bool.false_eq_true]

theorem frameLight_start (b R t : Nat) (h1 : R ≤ t) (h2 : t < R + 700) :
    frameLight b R t = true := by
  rw [frameLight_eq b R t h1, levelAt_hold 0 _ 0 (t - R) 1 700 (by rw [txFrame_trace]; rfl)
    (by simp [holdStart]) (by simp [holdStart]; omega)]
  rfl

theorem frameLight_gap1 (b R t : Nat) (h1 : R + 700 ≤ t) (h2 : t < R + 800) :
    frameLight b R t = false := by
  rw [frameLight_eq b R t (by omega), levelAt_hold 0 _ 1 (t - R) 0 100 (by rw [txFrame_trace]; rfl)
    (by simp [holdStart, txFrame_trace]; omega) (by simp [holdStart, txFrame_trace]; omega)]
  rfl

theorem frameLight_slot (b R t i : Nat) (hi : i < 8) (h1 : R + 800 + 100 * i ≤ t)
    (h2 : t < R + 900 + 100 * i) :
    frameLight b R t = ((b >>> (7 - i)) &&& 1 != 0) := by
  rw [frameLight_eq b R t (by omega)]
  congr 1
  interval_cases i
  · exact levelAt_hold 0 _ 2 (t - R) _ 100 (by rw [txFrame_trace]; rfl)
      (by simp [holdStart, txFrame_trace]; omega) (by simp [holdStart, txFrame_trace]; omega)
  · exact levelAt_hold 0 _ 3 (t - R) _ 100 (by rw [txFrame_trace]; rfl)
      (by simp [holdStart, txFrame_trace]; omega) (by simp [holdStart, txFrame_trace]; omega)
  · exact levelAt_hold 0 _ 4 (t - R) _ 100 (by rw [txFrame_trace]; rfl)
      (by simp [holdStart, txFrame_trace]; omega) (by simp [holdStart, txFrame_trace]; omega)
  · exact levelAt_hold 0 _ 5 (t - R) _ 100 (by rw [txFrame_trace]; rfl)
      (by simp [holdStart, txFrame_trace]; omega) (by simp [holdStart, txFrame_trace]; omega)
  · exact levelAt_hold 0 _ 6 (t - R) _ 100 (by rw [txFrame_trace]; rfl)
      (by simp [holdStart, txFrame_trace]; omega) (by simp [holdStart, txFrame_trace]; omega)
  · exact levelAt_hold 0 _ 7 (t - R) _ 100 (by rw [txFrame_trace]; rfl)
      (by simp [holdStart, txFrame_trace]; omega) (by simp [holdStart, txFrame_trace]; omega)
  · exact levelAt_hold 0 _ 8 (t - R) _ 100 (by rw [txFrame_trace]; rfl)
      (by simp [holdStart, txFrame_trace]; omega) (by simp [holdStart, txFrame_trace]; omega)
  · exact levelAt_hold 0 _ 9 (t - R) _ 100 (by rw [txFrame_trace]; rfl)
      (by simp [holdStart, txFrame_trace]; omega) (by simp [holdStart, txFrame_trace]; omega)

theorem frameLight_gap2 (b R t : Nat) (h1 : R + 1600 ≤ t) (h2 : t < R + 1700) :
    frameLight b R t = false := by
  rw [frameLight_eq b R t (by omega), levelAt_hold 0 _ 10 (t - R) 0 100
    (by rw [txFrame_trace]; rfl)
    (by simp [holdStart, txFrame_trace]; omega) (by simp [holdStart, txFrame_trace]; omega)]
  rfl

theorem frameLight_stop (b R t : Nat) (h1 : R + 1700 ≤ t) (h2 : t < R + 2700) :
    frameLight b R t = true := by
  rw [frameLight_eq b R t (by omega), levelAt_hold 0 _ 11 (t - R) 1 1000
    (by rw [txFrame_trace]; rfl)
    (by simp [holdStart, txFrame_trace]; omega) (by simp [holdStart, txFrame_trace]; omega)]
  rfl

theorem frameLight_after (b R t : Nat) (h1 : R + 2700 ≤ t) : frameLight b R t = false := by
  rw [frameLight_eq b R t (by omega), levelAt_end 0 _ (t - R)
    (by simp [holdStart, txFrame_trace]; omega)]
  rfl

theorem bit_ite (b k : Nat) : (if ((b >>> k) &&& 1 != 0) = true then 1 else 0) = (b >>> k) &&& 1 := by
  rw [shiftRight_and_one]
  rcases Nat.mod_two_eq_zero_or_one (b / 2 ^ k) with h | h <;> simp [h]

/-- Mid-slot samples of the data phase: a `read_byte` that starts `v` ms
(`v < 50`) after the first data slot began reads the levels driven. -/
theorem bitSamples_frame (b R v : Nat) (env : Sensor) (s : RxState)
    (henv : NoiseFree env (frameLight b R)) (hs : s.now = R + 800 + v) (hv : v < 50) :
    bitSamples env 8 s = drivenLevels b := by
  rw [bitSamples_noiseFree env _ henv, drivenLevels_eq]
  have hr : List.range 8 = [0, 1, 2, 3, 4, 5, 6, 7] := by decide
  rw [hr]
  simp only [List.map_cons, List.map_nil]
  rw [frameLight_slot b R _ 0 (by omega) (by omega) (by omega),
    frameLight_slot b R _ 1 (by omega) (by omega) (by omega),
    frameLight_slot b R _ 2 (by omega) (by omega) (by omega),
    frameLight_slot b R _ 3 (by omega) (by omega) (by omega),
    frameLight_slot b R _ 4 (by omega) (by omega) (by omega),
    frameLight_slot b R _ 5 (by omega) (by omega) (by omega),
    frameLight_slot b R _ 6 (by omega) (by omega) (by omega),
    frameLight_slot b R _ 7 (by omega) (by omega) (by omega)]
  simp only [bit_ite]

/-! ## Marker detection on a pulse -/

/-- A detector that sees `k` dark polls, then a pulse that lasts `n` polls and
ends, `n ≤ 200`: it applies its test to `10 * n`. -/
theorem detect_frame_pulse (test : Nat → Bool) (T fuel : Nat) (env : Sensor) (s : RxState)
    (k n : Nat) (hT : T ≤ 4294967296) (hk : k < fuel) (hn : n < fuel) (hkT : 10 * k < T)
    (hn2 : 10 * n ≤ 2000)
    (hdark : ∀ j, j < k → pollSample env s j = false) (hrise : pollSample env s k = true)
    (hlit : ∀ j, j < n → pollSample env (pollExit s k) j = true)
    (hfall : pollSample env (pollExit s k) n = false) :
    detect_frame test T fuel env s = some (test (10 * n), pollExit (pollExit s k) n) := by
  have hw : wait_for_light_state fuel env true T s = some (true, pollExit s k) := by
    unfold wait_for_light_state
    exact wait_loop_found env true T hT k fuel 0 s hk (by omega)
      (fun j hj => by simp [hdark j hj]) hrise
  have hm : measure_light_duration fuel env true (pollExit s k)
      = some (0 + 10 * n, pollExit (pollExit s k) n) := by
    unfold measure_light_duration
    exact measure_loop_change env true n fuel 0 _ hn (by omega) hlit (by simp [hfall])
  simp [detect_frame, hw, hm]

/-- A detector that sees only dark polls: it gives up after `n` polls, where
`n` is the number of 10 ms steps that reach the timeout. -/
theorem detect_frame_dark (test : Nat → Bool) (T fuel : Nat) (env : Sensor) (s : RxState)
    (n : Nat) (hT : T + 10 ≤ 4294967296) (hn : n < fuel) (hnT : T = 10 * n)
    (hdark : ∀ j, j < n → pollSample env s j = false) :
    detect_frame test T fuel env s = some (false, pollState s n) := by
  have hw : wait_for_light_state fuel env true T s = some (false, pollState s n) := by
    unfold wait_for_light_state
    exact wait_loop_timeout env true T hT n fuel 0 s hn (by omega) (fun j hj => by omega)
      (fun j hj => by simp [hdark j hj])
  simp [detect_frame, hw]

/-! ## The receiver cycle on an isolated frame -/

/-- START detection on an isolated frame joined at most 10 ms late: the pulse
is measured as 700 ms and the detector is left `d` ms after its falling edge. -/
theorem detect_start_frame_on_frame (b d k R fuel : Nat) (env : Sensor) (s : RxState)
    (hd : d < 10) (hk : k < 1000) (hR : R + d = s.now + 10 * k) (hfuel : 1001 ≤ fuel)
    (henv : NoiseFree env (frameLight b R)) :
    detect_start_frame fuel env s = some (true, pollExit (pollExit s k) 70) := by
  rw [detect_start_frame_eq]
  have hp := pollSample_noiseFree env _ henv
  have h1 : (pollExit s k).now = R + d := by simp only [pollExit]; omega
  rw [detect_frame_pulse start_frame_test 10000 fuel env s k 70 (by omega) (by omega) (by omega)
    (by omega) (by omega)]
  · rfl
  · intro j hj
    rw [hp, frameLight_before]
    omega
  · rw [hp, frameLight_start] <;> omega
  · intro j hj
    rw [hp, h1, frameLight_start] <;> omega
  · rw [hp, h1, frameLight_gap1] <;> omega

/-- STOP detection entered `d` ms (`d < 10`) after the STOP pulse of an
isolated frame rose: the pulse is measured as 1000 ms. -/
theorem detect_stop_frame_on_frame (b d R fuel : Nat) (env : Sensor) (s : RxState)
    (hd : d < 10) (hs : s.now = R + 1700 + d) (hfuel : 1001 ≤ fuel)
    (henv : NoiseFree env (frameLight b R)) :
    detect_stop_frame fuel env s = some (true, pollExit (pollExit s 0) 100) := by
  rw [detect_stop_frame_eq]
  have hp := pollSample_noiseFree env _ henv
  have h1 : (pollExit s 0).now = R + 1700 + d := by simp only [pollExit]; omega
  rw [detect_frame_pulse stop_frame_test 2000 fuel env s 0 100 (by omega) (by omega) (by omega)
    (by omega) (by omega)]
  · rfl
  · intro j hj; omega
  · rw [hp, frameLight_stop] <;> omega
  · intro j hj
    rw [hp, h1, frameLight_stop] <;> omega
  · rw [hp, h1, frameLight_after]; omega

/-! ## The claims -/

/-- C1 (frame-level round trip). The receiver polls every 10 ms from state `s`;
the START pulse of an isolated frame for the byte `b` rises at time `R`, and
the first poll that sees it is poll `k` (one of the 1000 polls of the wait), made
`d < 10` ms after the rise. With a noise-free sensor, `detect_start_frame`
succeeds, `read_byte` returns `b`, `detect_stop_frame` succeeds and the cycle
writes exactly `b`, as two hexadecimal digits and a newline. -/
theorem frame_round_trip (b d k R fuel : Nat) (env : Sensor) (s : RxState)
    (hb : b < 256) (hd : d < 10) (hk : k < 1000) (hR : R + d = s.now + 10 * k)
    (hfuel : 1001 ≤ fuel) (henv : NoiseFree env (frameLight b R)) :
    ∃ s1 s3 s4, detect_start_frame fuel env s = some (true, s1) ∧
      read_byte env (vTaskDelay BIT_DURATION_MS s1) = (b, s3) ∧
      detect_stop_frame fuel env (vTaskDelay BIT_DURATION_MS s3) = some (true, s4) ∧
      app_main_body fuel env s = some (vTaskDelay 500 (printf_02X_nl b s4)) ∧
      (vTaskDelay 500 (printf_02X_nl b s4)).out = s.out ++ (format_02X b ++ [Char.ofNat 10]) := by
  have hstart := detect_start_frame_on_frame b d k R fuel env s hd hk hR hfuel henv
  have hnow2 : (vTaskDelay BIT_DURATION_MS (pollExit (pollExit s k) 70)).now = R + 800 + d := by
    simp only [vTaskDelay, pollExit, BIT_DURATION_MS]; omega
  have hval : (read_byte env (vTaskDelay BIT_DURATION_MS (pollExit (pollExit s k) 70))).1 = b :=
    read_byte_of_samples b env _ hb (bitSamples_frame b R d env _ henv hnow2 (by omega))
  have hnow3 : (vTaskDelay BIT_DURATION_MS
      (read_byte env (vTaskDelay BIT_DURATION_MS (pollExit (pollExit s k) 70))).2).now
        = R + 1700 + d := by
    rw [read_byte_state]
    simp only [vTaskDelay, BIT_DURATION_MS] at hnow2 ⊢
    omega
  have hstop := detect_stop_frame_on_frame b d R fuel env _ hd hnow3 hfuel henv
  refine ⟨_, _, _, hstart, Prod.ext hval rfl, hstop, ?_, ?_⟩
  · simp only [app_main_body, hstart, hstop, hval]
  · simp [vTaskDelay, printf_02X_nl, pollExit, read_byte_state]

/-- Witness of C1: the byte 0xA5, START rising at 995 ms, first seen by poll
100 of a receiver started at time 0, 5 ms after the rise. -/
theorem frame_round_trip_witness :
    ∃ s1 s3 s4,
      detect_start_frame 1001 (idealSensor (frameLight 165 995)) ⟨0, 0, []⟩ = some (true, s1) ∧
      read_byte (idealSensor (frameLight 165 995)) (vTaskDelay BIT_DURATION_MS s1) = (165, s3) ∧
      detect_stop_frame 1001 (idealSensor (frameLight 165 995)) (vTaskDelay BIT_DURATION_MS s3)
        = some (true, s4) ∧
      app_main_body 1001 (idealSensor (frameLight 165 995)) ⟨0, 0, []⟩
        = some (vTaskDelay 500 (printf_02X_nl 165 s4)) ∧
      (vTaskDelay 500 (printf_02X_nl 165 s4)).out = [] ++ (format_02X 165 ++ [Char.ofNat 10]) :=
  frame_round_trip 165 5 100 995 1001 (idealSensor (frameLight 165 995)) ⟨0, 0, []⟩
    (by decide) (by decide) (by decide) (by decide) (by decide) (idealSensor_noiseFree _)

/-- C2 (codec round trip). If the eight values that the successive `read_bit`
calls of `read_byte` return are the eight levels that `transmit_byte b` drives,
in the order it drives them, then `read_byte` returns `b`. -/
theorem codec_round_trip (b : Nat) (env : Sensor) (s : RxState) (hb : b < 256)
    (h : bitSamples env 8 s = drivenLevels b) : (read_byte env s).1 = b :=
  read_byte_of_samples b env s hb h

/-- Witness of C2: 0xA5 is driven as 1,0,1,0,0,1,0,1 and a `read_byte` that
starts with the data phase of its frame reads these levels and rebuilds 0xA5. -/
theorem codec_round_trip_witness :
    drivenLevels 165 = [1, 0, 1, 0, 0, 1, 0, 1] ∧
      bitSamples (idealSensor (frameLight 165 0)) 8 ⟨800, 0, []⟩ = drivenLevels 165 ∧
      (read_byte (idealSensor (frameLight 165 0)) ⟨800, 0, []⟩).1 = 165 :=
  ⟨by decide,
    bitSamples_frame 165 0 0 _ _ (idealSensor_noiseFree _) (by decide) (by decide),
    codec_round_trip 165 (idealSensor (frameLight 165 0)) ⟨800, 0, []⟩ (by decide)
      (bitSamples_frame 165 0 0 _ _ (idealSensor_noiseFree _) (by decide) (by decide))⟩

/-- C3 (no false byte emission). One receiver cycle always returns. If
`detect_start_frame` fails, nothing is written and no sensor read or delay
other than the final 500 ms follows, so `read_byte` is not run. If it
succeeds, the cycle writes something exactly when `detect_stop_frame`, run
after the payload was read, succeeds, and what it writes is the value
`read_byte` returned, as two hexadecimal digits and a newline. -/
theorem no_false_emission (fuel : Nat) (env : Sensor) (s : RxState) (hfuel : 1001 ≤ fuel) :
    ∃ started s1 s', detect_start_frame fuel env s = some (started, s1) ∧
      app_main_body fuel env s = some s' ∧
      (started = false → s'.out = s.out ∧ s'.reads = s1.reads ∧ s'.now = s1.now + 500) ∧
      (started = true → ∃ stopped s4,
        detect_stop_frame fuel env
          (vTaskDelay BIT_DURATION_MS (read_byte env (vTaskDelay BIT_DURATION_MS s1)).2)
            = some (stopped, s4) ∧
        (s'.out ≠ s.out ↔ stopped = true) ∧
        (stopped = true → s'.out = s.out ++
          (format_02X (read_byte env (vTaskDelay BIT_DURATION_MS s1)).1 ++ [Char.ofNat 10]))) := by
  obtain ⟨⟨started, s1⟩, h1, ho1, _⟩ :=
    detect_frame_spec start_frame_test 10000 fuel env s (by omega) (by omega) (by omega)
  rw [← detect_start_frame_eq] at h1
  cases started with
  | false =>
    refine ⟨false, s1, vTaskDelay 500 s1, h1, by simp [app_main_body, h1], ?_, by simp⟩
    intro _
    exact ⟨ho1, rfl, rfl⟩
  | true =>
    obtain ⟨⟨stopped, s4⟩, h3, ho3, _⟩ :=
      detect_frame_spec stop_frame_test 2000 fuel env
        (vTaskDelay BIT_DURATION_MS (read_byte env (vTaskDelay BIT_DURATION_MS s1)).2)
        (by omega) (by omega) (by omega)
    rw [← detect_stop_frame_eq] at h3
    have hout : s4.out = s.out := by
      simp only at ho3 ho1
      rw [ho3, read_byte_state]
      simpa [vTaskDelay] using ho1
    cases stopped with
    | false =>
      refine ⟨true, s1, vTaskDelay 500 s4, h1, by simp [app_main_body, h1, h3], by simp, ?_⟩
      intro _
      exact ⟨false, s4, h3, by simp [vTaskDelay, hout], by simp⟩
    | true =>
      refine ⟨true, s1, vTaskDelay 500 (printf_02X_nl
        (read_byte env (vTaskDelay BIT_DURATION_MS s1)).1 s4), h1,
        by simp [app_main_body, h1, h3], by simp, ?_⟩
      intro _
      exact ⟨true, s4, h3, by simp [vTaskDelay, printf_02X_nl, hout],
        by simp [vTaskDelay, printf_02X_nl, hout]⟩

/-- Witness of C3: a cycle on a dark channel. -/
theorem no_false_emission_witness :
    ∃ started s1 s', detect_start_frame 1001 (fun _ _ => 0) ⟨0, 0, []⟩ = some (started, s1) ∧
      app_main_body 1001 (fun _ _ => 0) ⟨0, 0, []⟩ = some s' ∧
      (started = false → s'.out = [] ∧ s'.reads = s1.reads ∧ s'.now = s1.now + 500) ∧
      (started = true → ∃ stopped s4,
        detect_stop_frame 1001 (fun _ _ => 0)
          (vTaskDelay BIT_DURATION_MS
            (read_byte (fun _ _ => 0) (vTaskDelay BIT_DURATION_MS s1)).2)
            = some (stopped, s4) ∧
        (s'.out ≠ [] ↔ stopped = true) ∧
        (stopped = true → s'.out = [] ++
          (format_02X (read_byte (fun _ _ => 0) (vTaskDelay BIT_DURATION_MS s1)).1
            ++ [Char.ofNat 10]))) :=
  no_false_emission 1001 (fun _ _ => 0) ⟨0, 0, []⟩ (by decide)

/-- C4 (window disambiguation). No duration passes both the START test and the
STOP test; 700 passes START only, 1000 passes STOP only, 850 and the 100 ms of
a single lit bit pass neither. -/
theorem window_disambiguation :
    (∀ d, ¬ (start_frame_test d = true ∧ stop_frame_test d = true)) ∧
      (start_frame_test 700 = true ∧ stop_frame_test 700 = false) ∧
      (stop_frame_test 1000 = true ∧ start_frame_test 1000 = false) ∧
      (start_frame_test 850 = false ∧ stop_frame_test 850 = false) ∧
      (start_frame_test 100 = false ∧ stop_frame_test 100 = false) := by
  refine ⟨?_, by decide, by decide, by decide, by decide⟩
  intro d
  simp only [start_frame_test, stop_frame_test, START_FRAME_MIN_MS, START_FRAME_MAX_MS,
    STOP_FRAME_MIN_MS, STOP_FRAME_MAX_MS, Bool.and_eq_true, decide_eq_true_eq]
  omega

/-- C5 (boundary inclusivity). The START test accepts exactly the durations
from 600 to 800 and the STOP test exactly those from 900 to 1100, the bounds
included: 600 and 800 pass START, 599 and 801 do not. -/
theorem boundary_inclusivity :
    (∀ d, (start_frame_test d = true ↔ 600 ≤ d ∧ d ≤ 800) ∧
      (stop_frame_test d = true ↔ 900 ≤ d ∧ d ≤ 1100)) ∧
      start_frame_test 600 = true ∧ start_frame_test 800 = true ∧
      start_frame_test 599 = false ∧ start_frame_test 801 = false := by
  refine ⟨?_, by decide, by decide, by decide, by decide⟩
  intro d
  simp only [start_frame_test, stop_frame_test, START_FRAME_MIN_MS, START_FRAME_MAX_MS,
    STOP_FRAME_MIN_MS, STOP_FRAME_MAX_MS, Bool.and_eq_true, decide_eq_true_eq, ge_iff_le,
    and_self]

/-- C6 (marker detection result). `detect_start_frame` returns, and it returns
true exactly when `wait_for_light_state(true, 10000)` reaches ON and the
duration that `measure_light_duration(true)` then returns lies in 600..800;
likewise `detect_stop_frame` with the 2000 ms wait and the window 900..1100.
So a timeout and a duration out of the window both give false. -/
theorem marker_detection_result (fuel : Nat) (env : Sensor) (s : RxState)
    (hfuel : 1001 ≤ fuel) :
    (∃ r, detect_start_frame fuel env s = some r ∧
      (r.1 = true ↔ ∃ s1 d s2, wait_for_light_state fuel env true 10000 s = some (true, s1) ∧
        measure_light_duration fuel env true s1 = some (d, s2) ∧ 600 ≤ d ∧ d ≤ 800)) ∧
    (∃ r, detect_stop_frame fuel env s = some r ∧
      (r.1 = true ↔ ∃ s1 d s2, wait_for_light_state fuel env true 2000 s = some (true, s1) ∧
        measure_light_duration fuel env true s1 = some (d, s2) ∧ 900 ≤ d ∧ d ≤ 1100)) := by
  constructor
  · obtain ⟨r, hr, _, hiff⟩ :=
      detect_frame_spec start_frame_test 10000 fuel env s (by omega) (by omega) (by omega)
    refine ⟨r, hr, ?_⟩
    rw [hiff]
    simp only [start_frame_test, START_FRAME_MIN_MS, START_FRAME_MAX_MS, Bool.and_eq_true,
      decide_eq_true_eq, ge_iff_le]
  · obtain ⟨r, hr, _, hiff⟩ :=
      detect_frame_spec stop_frame_test 2000 fuel env s (by omega) (by omega) (by omega)
    refine ⟨r, hr, ?_⟩
    rw [hiff]
    simp only [stop_frame_test, STOP_FRAME_MIN_MS, STOP_FRAME_MAX_MS, Bool.and_eq_true,
      decide_eq_true_eq, ge_iff_le]

/-- Witness of C6: both detectors on the light of an isolated frame for 0x4B. -/
theorem marker_detection_result_witness :
    (∃ r, detect_start_frame 1001 (idealSensor (frameLight 75 20)) ⟨0, 0, []⟩ = some r ∧
      (r.1 = true ↔ ∃ s1 d s2,
        wait_for_light_state 1001 (idealSensor (frameLight 75 20)) true 10000 ⟨0, 0, []⟩
          = some (true, s1) ∧
        measure_light_duration 1001 (idealSensor (frameLight 75 20)) true s1 = some (d, s2) ∧
        600 ≤ d ∧ d ≤ 800)) ∧
    (∃ r, detect_stop_frame 1001 (idealSensor (frameLight 75 20)) ⟨0, 0, []⟩ = some r ∧
      (r.1 = true ↔ ∃ s1 d s2,
        wait_for_light_state 1001 (idealSensor (frameLight 75 20)) true 2000 ⟨0, 0, []⟩
          = some (true, s1) ∧
        measure_light_duration 1001 (idealSensor (frameLight 75 20)) true s1 = some (d, s2) ∧
        900 ≤ d ∧ d ≤ 1100)) :=
  marker_detection_result 1001 (idealSensor (frameLight 75 20)) ⟨0, 0, []⟩ (by decide)

/-- C7, as the code has it: with fuel for its 201 polls `measure_light_duration`
returns, and the duration it returns never exceeds 2010. -/
theorem measure_light_duration_ceiling (fuel : Nat) (env : Sensor) (state : Bool)
    (s : RxState) (hfuel : 201 ≤ fuel) :
    ∃ r, measure_light_duration fuel env state s = some r ∧ r.1 ≤ 2010 := by
  obtain ⟨r, hr, hle, _⟩ := measure_light_duration_total fuel env state s hfuel
  exact ⟨r, hr, hle⟩

/-- Witness of C7 as amended: a light that is on for ever. -/
theorem measure_light_duration_ceiling_witness :
    ∃ r, measure_light_duration 201 (idealSensor (fun _ => true)) true ⟨0, 0, []⟩ = some r ∧
      r.1 ≤ 2010 :=
  measure_light_duration_ceiling 201 (idealSensor (fun _ => true)) true ⟨0, 0, []⟩ (by decide)

/-- C7, as stated, fails: a light that stays on is measured as 2010 ms, which
exceeds 2000. -/
theorem measure_light_duration_exceeds_2000 :
    measure_light_duration 201 (idealSensor (fun _ => true)) true ⟨0, 0, []⟩
        = some (2010, ⟨2010, 2010, []⟩) ∧
      ¬ (2010 ≤ 2000) := by
  refine ⟨?_, by decide⟩
  unfold measure_light_duration
  rw [measure_loop_ceiling (idealSensor (fun _ => true)) true 201 201 0 ⟨0, 0, []⟩ (by decide)
    (by decide) (by decide) (by decide)
    (fun j _ => pollSample_noiseFree _ _ (idealSensor_noiseFree _) _ j)]
  rfl

/-- C8, as the code has it: every maximal lit run of the data phase lasts a
whole number of 100 ms slots, from one to eight, so it never passes the STOP
test; it passes the START test exactly when it spans six slots or more. -/
theorem data_runs_versus_windows (b : Nat) (hb : b < 256) :
    ∀ r ∈ onRuns (dataPhase b) 0, r % 100 = 0 ∧ 100 ≤ r ∧ r ≤ 800 ∧
      stop_frame_test r = false ∧ (start_frame_test r = true ↔ 600 ≤ r) := by
  interval_cases b <;> decide

/-- Witness of C8 as amended: the byte 0x7E, whose six lit slots form one run. -/
theorem data_runs_versus_windows_witness :
    onRuns (dataPhase 126) 0 = [600] ∧
      ∀ r ∈ onRuns (dataPhase 126) 0, r % 100 = 0 ∧ 100 ≤ r ∧ r ≤ 800 ∧
        stop_frame_test r = false ∧ (start_frame_test r = true ↔ 600 ≤ r) :=
  ⟨by decide, data_runs_versus_windows 126 (by decide)⟩

/-- C8, as stated, fails: the data phase of 0xFF is one lit run of 800 ms, and
800 ms passes the START test. -/
theorem data_run_in_start_window :
    onRuns (dataPhase 255) 0 = [800] ∧ start_frame_test 800 = true := by
  decide

/-- The receiver loop on a dark channel: every iteration returns and the
output stays as it was. -/
theorem app_main_dark (fuel : Nat) (env : Sensor)
    (hbody : ∀ s, ∃ s1, app_main_body fuel env s = some s1 ∧ s1.out = s.out) :
    ∀ (n : Nat) (s : RxState), ∃ s1, app_main fuel env n s = some s1 ∧ s1.out = s.out := by
  intro n
  induction n with
  | zero => intro s; exact ⟨s, rfl, rfl⟩
  | succ n ih =>
    intro s
    obtain ⟨s1, h1, ho1⟩ := hbody s
    obtain ⟨s2, h2, ho2⟩ := ih s1
    exact ⟨s2, by simp [app_main, h1, h2], by rw [ho2, ho1]⟩

theorem detect_start_frame_dark (fuel : Nat) (env : Sensor) (hfuel : 1001 ≤ fuel)
    (hoff : ∀ s, (is_light_on env s).1 = false) (s : RxState) :
    detect_start_frame fuel env s = some (false, pollState s 1000) := by
  rw [detect_start_frame_eq]
  exact detect_frame_dark start_frame_test 10000 fuel env s 1000 (by omega) (by omega) rfl
    (fun j _ => hoff _)

/-- C9 (idle resilience). On a channel whose every sample is OFF,
`detect_start_frame` returns false after 1000 polls (ten conversions each) and
10 000 ms of delay, the cycle ends 500 ms later having written nothing, and
after any number of iterations of the receiver loop the output is unchanged. -/
theorem idle_resilience (fuel : Nat) (env : Sensor) (s : RxState) (hfuel : 1001 ≤ fuel)
    (hoff : ∀ s1, (is_light_on env s1).1 = false) :
    detect_start_frame fuel env s
        = some (false, { s with now := s.now + 10000, reads := s.reads + 10 * 1000 }) ∧
      app_main_body fuel env s
        = some { s with now := s.now + 10000 + 500, reads := s.reads + 10 * 1000 } ∧
      ∀ n, ∃ s1, app_main fuel env n s = some s1 ∧ s1.out = s.out := by
  have hbody : ∀ s0, app_main_body fuel env s0 = some (vTaskDelay 500 (pollState s0 1000)) := by
    intro s0
    simp [app_main_body, detect_start_frame_dark fuel env hfuel hoff s0]
  refine ⟨detect_start_frame_dark fuel env hfuel hoff s, hbody s, ?_⟩
  exact fun n => app_main_dark fuel env (fun s0 => ⟨_, hbody s0, rfl⟩) n s

/-- Witness of C9: a sensor that always reads 0. -/
theorem idle_resilience_witness :
    detect_start_frame 1001 (fun _ _ => 0) ⟨0, 0, []⟩
        = some (false, ⟨0 + 10000, 0 + 10 * 1000, []⟩) ∧
      app_main_body 1001 (fun _ _ => 0) ⟨0, 0, []⟩
        = some ⟨0 + 10000 + 500, 0 + 10 * 1000, []⟩ ∧
      ∀ n, ∃ s1, app_main 1001 (fun _ _ => 0) n ⟨0, 0, []⟩ = some s1 ∧ s1.out = [] :=
  idle_resilience 1001 (fun _ _ => 0) ⟨0, 0, []⟩ (by decide)
    (fun s1 => (is_light_on_of_bounds (fun _ _ => 0) s1).2 (fun _ => by decide))

/-- C10 (transmitted frame shape). One transmitter cycle for the byte `b` adds
to the trace ON for 700 ms, OFF for 100 ms, the eight bits of `b` from bit 7
down to bit 0 for 100 ms each, OFF for 100 ms and ON for 1000 ms, and leaves
the pin OFF; the holds add up to 2700 ms. -/
theorem transmitted_frame_shape (b : Nat) (s : Transmit.TxState) :
    (Transmit.app_main_body 1 b s).trace = s.trace ++
        [(1, 700), (0, 100), (b / 128 % 2, 100), (b / 64 % 2, 100), (b / 32 % 2, 100),
          (b / 16 % 2, 100), (b / 8 % 2, 100), (b / 4 % 2, 100), (b / 2 % 2, 100),
          (b % 2, 100), (0, 100), (1, 1000)] ∧
      (Transmit.app_main_body 1 b s).level = 0 ∧
      (((Transmit.app_main_body 1 b s).trace.drop s.trace.length).map Prod.snd).sum = 2700 := by
  have ht := transmit_app_main_body_trace b s
  simp only [shiftRight_and_one] at ht
  norm_num at ht
  refine ⟨ht, rfl, ?_⟩
  rw [ht]
  simp

/-! ## Lemmas on the decode fold -/

theorem bitSamples_eq (env : Sensor) :
    ∀ (n : Nat) (s : RxState), bitSamples env n s = (List.range n).map (bitSampleAt env s) := by
  intro n
  induction n with
  | zero => intro s; simp [bitSamples]
  | succ n ih =>
    intro s
    rw [bitSamples, ih, List.range_succ_eq_map, List.map_cons, List.map_map, read_bit_value,
      read_bit_state]
    have h0 : bitSampleAt env s 0 = if (is_light_on env (vTaskDelay 50 s)).1 then 1 else 0 := by
      simp [bitSampleAt, bitState, vTaskDelay]
    rw [h0]
    simp only [List.cons.injEq, true_and]
    apply List.map_congr_left
    intro i _
    simp only [Function.comp, Nat.succ_eq_add_one, bitSampleAt, bitState]
    have h1 : s.now + 100 + 100 * i + 50 = s.now + 100 * (i + 1) + 50 := by omega
    have h2 : s.reads + 20 + 20 * i = s.reads + 20 * (i + 1) := by omega
    simp only [h1, h2]

theorem bitSampleAt_le_one (env : Sensor) (s : RxState) (k : Nat) : bitSampleAt env s k ≤ 1 := by
  unfold bitSampleAt; split <;> omega

theorem foldBits_bool : ∀ b0 b1 b2 b3 b4 b5 b6 b7 : Bool,
    foldBits 8 0 [b0.toNat, b1.toNat, b2.toNat, b3.toNat, b4.toNat, b5.toNat, b6.toNat, b7.toNat]
      = b0.toNat * 128 + b1.toNat * 64 + b2.toNat * 32 + b3.toNat * 16 + b4.toNat * 8
        + b5.toNat * 4 + b6.toNat * 2 + b7.toNat := by
  decide

theorem toNat_decide_eq_one (x : Nat) (h : x ≤ 1) : (decide (x = 1)).toNat = x := by
  have e : x = 0 ∨ x = 1 := by omega
  rcases e with rfl | rfl <;> rfl

theorem foldBits_eight (x0 x1 x2 x3 x4 x5 x6 x7 : Nat) (h0 : x0 ≤ 1) (h1 : x1 ≤ 1) (h2 : x2 ≤ 1)
    (h3 : x3 ≤ 1) (h4 : x4 ≤ 1) (h5 : x5 ≤ 1) (h6 : x6 ≤ 1) (h7 : x7 ≤ 1) :
    foldBits 8 0 [x0, x1, x2, x3, x4, x5, x6, x7]
      = x0 * 128 + x1 * 64 + x2 * 32 + x3 * 16 + x4 * 8 + x5 * 4 + x6 * 2 + x7 := by
  have h := foldBits_bool (decide (x0 = 1)) (decide (x1 = 1)) (decide (x2 = 1)) (decide (x3 = 1))
    (decide (x4 = 1)) (decide (x5 = 1)) (decide (x6 = 1)) (decide (x7 = 1))
  simp only [toNat_decide_eq_one, h0, h1, h2, h3, h4, h5, h6, h7] at h
  exact h

theorem read_light_sensor_loop_congr (env env2 : Sensor) :
    ∀ (n : Nat) (acc : Int) (s : RxState),
      (∀ i, i < n → env2 (s.reads + i) s.now = env (s.reads + i) s.now) →
      read_light_sensor_loop env2 n acc s = read_light_sensor_loop env n acc s := by
  intro n
  induction n with
  | zero => intro acc s _; rfl
  | succ n ih =>
    intro acc s h
    have h0 : env2 s.reads s.now = env s.reads s.now := by simpa using h 0 (by omega)
    simp only [read_light_sensor_loop, adc_oneshot_read, h0]
    apply ih
    intro i hi
    have := h (i + 1) (by omega)
    simp only
    rw [show s.reads + 1 + i = s.reads + (i + 1) by omega]
    exact this

theorem is_light_on_congr (env env2 : Sensor) (s : RxState)
    (h : ∀ i, i < 10 → env2 (s.reads + i) s.now = env (s.reads + i) s.now) :
    is_light_on env2 s = is_light_on env s := by
  simp only [is_light_on, read_light_sensor, read_light_sensor_loop_congr env env2 10 0 s h]

theorem bitSampleAt_congr (env env2 : Sensor) (s : RxState) (k : Nat)
    (h : ∀ i, i < 10 → env2 (s.reads + 20 * k + i) (s.now + 100 * k + 50)
      = env (s.reads + 20 * k + i) (s.now + 100 * k + 50)) :
    bitSampleAt env2 s k = bitSampleAt env s k := by
  unfold bitSampleAt
  rw [is_light_on_congr env env2 (bitState s k) h]

theorem range_eight : List.range 8 = [0, 1, 2, 3, 4, 5, 6, 7] := by decide

theorem read_byte_eq_sum (env : Sensor) (s : RxState) :
    (read_byte env s).1 = bitSampleAt env s 0 * 128 + bitSampleAt env s 1 * 64
      + bitSampleAt env s 2 * 32 + bitSampleAt env s 3 * 16 + bitSampleAt env s 4 * 8
      + bitSampleAt env s 5 * 4 + bitSampleAt env s 6 * 2 + bitSampleAt env s 7 := by
  rw [read_byte, read_byte_loop_value, bitSamples_eq, range_eight]
  simp only [List.map_cons, List.map_nil]
  exact foldBits_eight _ _ _ _ _ _ _ _ (bitSampleAt_le_one env s 0) (bitSampleAt_le_one env s 1)
    (bitSampleAt_le_one env s 2) (bitSampleAt_le_one env s 3) (bitSampleAt_le_one env s 4)
    (bitSampleAt_le_one env s 5) (bitSampleAt_le_one env s 6) (bitSampleAt_le_one env s 7)

/-- C11 (decode fold). The eight values `read_bit` returns to `read_byte` are
the `is_light_on` samples taken 50 ms into each slot; `read_byte` returns the
first times 128 plus the second times 64 and so on down to the eighth, a value
below 256. A sensor that differs only in the conversions of the diagnostic
reads (the second ten of each `read_bit`) gives the same byte. -/
theorem decode_fold (env env2 : Sensor) (s : RxState)
    (hagree : ∀ k, k < 8 → ∀ i, i < 10 →
      env2 (s.reads + 20 * k + i) (s.now + 100 * k + 50)
        = env (s.reads + 20 * k + i) (s.now + 100 * k + 50)) :
    bitSamples env 8 s = [bitSampleAt env s 0, bitSampleAt env s 1, bitSampleAt env s 2,
        bitSampleAt env s 3, bitSampleAt env s 4, bitSampleAt env s 5, bitSampleAt env s 6,
        bitSampleAt env s 7] ∧
      (read_byte env s).1 = bitSampleAt env s 0 * 128 + bitSampleAt env s 1 * 64
        + bitSampleAt env s 2 * 32 + bitSampleAt env s 3 * 16 + bitSampleAt env s 4 * 8
        + bitSampleAt env s 5 * 4 + bitSampleAt env s 6 * 2 + bitSampleAt env s 7 ∧
      (read_byte env s).1 < 256 ∧
      (read_byte env2 s).1 = (read_byte env s).1 := by
  refine ⟨?_, read_byte_eq_sum env s, ?_, ?_⟩
  · rw [bitSamples_eq, range_eight]
    rfl
  · rw [read_byte_eq_sum]
    have h0 := bitSampleAt_le_one env s 0
    have h1 := bitSampleAt_le_one env s 1
    have h2 := bitSampleAt_le_one env s 2
    have h3 := bitSampleAt_le_one env s 3
    have h4 := bitSampleAt_le_one env s 4
    have h5 := bitSampleAt_le_one env s 5
    have h6 := bitSampleAt_le_one env s 6
    have h7 := bitSampleAt_le_one env s 7
    omega
  · rw [read_byte_eq_sum, read_byte_eq_sum,
      bitSampleAt_congr env env2 s 0 (hagree 0 (by omega)),
      bitSampleAt_congr env env2 s 1 (hagree 1 (by omega)),
      bitSampleAt_congr env env2 s 2 (hagree 2 (by omega)),
      bitSampleAt_congr env env2 s 3 (hagree 3 (by omega)),
      bitSampleAt_congr env env2 s 4 (hagree 4 (by omega)),
      bitSampleAt_congr env env2 s 5 (hagree 5 (by omega)),
      bitSampleAt_congr env env2 s 6 (hagree 6 (by omega)),
      bitSampleAt_congr env env2 s 7 (hagree 7 (by omega))]

/-- Witness of C11: a `read_byte` on the data phase of the frame for 0xA5, and
the same sensor with every diagnostic conversion replaced. -/
theorem decode_fold_witness :
    bitSamples (idealSensor (frameLight 165 0)) 8 ⟨800, 0, []⟩
        = [bitSampleAt (idealSensor (frameLight 165 0)) ⟨800, 0, []⟩ 0,
          bitSampleAt (idealSensor (frameLight 165 0)) ⟨800, 0, []⟩ 1,
          bitSampleAt (idealSensor (frameLight 165 0)) ⟨800, 0, []⟩ 2,
          bitSampleAt (idealSensor (frameLight 165 0)) ⟨800, 0, []⟩ 3,
          bitSampleAt (idealSensor (frameLight 165 0)) ⟨800, 0, []⟩ 4,
          bitSampleAt (idealSensor (frameLight 165 0)) ⟨800, 0, []⟩ 5,
          bitSampleAt (idealSensor (frameLight 165 0)) ⟨800, 0, []⟩ 6,
          bitSampleAt (idealSensor (frameLight 165 0)) ⟨800, 0, []⟩ 7] ∧
      (read_byte (idealSensor (frameLight 165 0)) ⟨800, 0, []⟩).1
        = bitSampleAt (idealSensor (frameLight 165 0)) ⟨800, 0, []⟩ 0 * 128
          + bitSampleAt (idealSensor (frameLight 165 0)) ⟨800, 0, []⟩ 1 * 64
          + bitSampleAt (idealSensor (frameLight 165 0)) ⟨800, 0, []⟩ 2 * 32
          + bitSampleAt (idealSensor (frameLight 165 0)) ⟨800, 0, []⟩ 3 * 16
          + bitSampleAt (idealSensor (frameLight 165 0)) ⟨800, 0, []⟩ 4 * 8
          + bitSampleAt (idealSensor (frameLight 165 0)) ⟨800, 0, []⟩ 5 * 4
          + bitSampleAt (idealSensor (frameLight 165 0)) ⟨800, 0, []⟩ 6 * 2
          + bitSampleAt (idealSensor (frameLight 165 0)) ⟨800, 0, []⟩ 7 ∧
      (read_byte (idealSensor (frameLight 165 0)) ⟨800, 0, []⟩).1 < 256 ∧
      (read_byte (diagOverride (idealSensor (frameLight 165 0))) ⟨800, 0, []⟩).1
        = (read_byte (idealSensor (frameLight 165 0)) ⟨800, 0, []⟩).1 :=
  decode_fold (idealSensor (frameLight 165 0)) (diagOverride (idealSensor (frameLight 165 0)))
    ⟨800, 0, []⟩ (fun k _ i hi => by
      have h : (0 + 20 * k + i) % 20 < 10 := by omega
      simp only [diagOverride, h, if_true])

/-! ## Lemmas on the sensor average -/

theorem read_light_sensor_loop_sum (env : Sensor) :
    ∀ (n : Nat) (acc : Int) (s : RxState), 0 ≤ acc → acc + 4095 * n ≤ 40950 →
      (∀ i, i < n → 0 ≤ env (s.reads + i) s.now ∧ env (s.reads + i) s.now ≤ 4095) →
      (read_light_sensor_loop env n acc s).1
        = acc + ((List.range n).map (fun i => env (s.reads + i) s.now)).sum := by
  intro n
  induction n with
  | zero => intro acc s _ _ _; simp [read_light_sensor_loop]
  | succ n ih =>
    intro acc s h0 h1 henv
    have hv : 0 ≤ env s.reads s.now ∧ env s.reads s.now ≤ 4095 := by
      simpa using henv 0 (by omega)
    have hacc : toInt32 (acc + env s.reads s.now) = acc + env s.reads s.now := by
      apply toInt32_of_range <;> push_cast at h1 <;> omega
    simp only [read_light_sensor_loop, adc_oneshot_read, hacc]
    rw [ih (acc + env s.reads s.now) { s with reads := s.reads + 1 } (by omega)
      (by push_cast at h1 ⊢; omega)]
    · rw [List.range_succ_eq_map, List.map_cons, List.map_map, List.sum_cons]
      have hm : List.map (fun i => env (s.reads + 1 + i) s.now) (List.range n)
          = List.map ((fun i => env (s.reads + i) s.now) ∘ Nat.succ) (List.range n) := by
        apply List.map_congr_left
        intro i _
        simp only [Function.comp, Nat.succ_eq_add_one]
        have e : s.reads + 1 + i = s.reads + (i + 1) := by omega
        simp only [e]
      simp only [hm, Nat.add_zero]
      omega
    · intro i hi
      have := henv (i + 1) (by omega)
      have e : s.reads + 1 + i = s.reads + (i + 1) := by omega
      simp only [e]
      exact this

theorem rawReadings_sum_bounds (env : Sensor) (s : RxState)
    (h : ∀ v ∈ rawReadings env s, 0 ≤ v ∧ v ≤ 4095) :
    0 ≤ (rawReadings env s).sum ∧ (rawReadings env s).sum ≤ 40950 := by
  have hb : ∀ (l : List Int), (∀ v ∈ l, 0 ≤ v ∧ v ≤ 4095) →
      0 ≤ l.sum ∧ l.sum ≤ 4095 * l.length := by
    intro l
    induction l with
    | nil => intro _; simp
    | cons a l ih =>
      intro hl
      have ha := hl a (by simp)
      have hr := ih (fun v hv => hl v (by simp [hv]))
      simp only [List.sum_cons, List.length_cons]
      push_cast
      omega
  have := hb _ h
  simp only [rawReadings, List.length_map, List.length_range] at this ⊢
  omega

/-- C13 (light-state decision). When the ten raw readings lie in 0..4095,
`read_light_sensor` returns their sum divided by ten with truncation, and
`is_light_on` is true exactly when that average exceeds 700, that is exactly
when the sum is at least 7010; an average of exactly 700 is OFF. -/
theorem light_state_decision (env : Sensor) (s : RxState)
    (h : ∀ v ∈ rawReadings env s, 0 ≤ v ∧ v ≤ 4095) :
    ((read_light_sensor env s).1 : Int) = Int.tdiv (rawReadings env s).sum 10 ∧
      ((is_light_on env s).1 = true ↔ 700 < Int.tdiv (rawReadings env s).sum 10) ∧
      ((is_light_on env s).1 = true ↔ 7010 ≤ (rawReadings env s).sum) ∧
      (Int.tdiv (rawReadings env s).sum 10 = 700 → (is_light_on env s).1 = false) := by
  have hs := rawReadings_sum_bounds env s h
  have hl : (read_light_sensor_loop env 10 0 s).1 = (rawReadings env s).sum := by
    rw [read_light_sensor_loop_sum env 10 0 s (by omega) (by norm_num)]
    · simp [rawReadings]
    · intro i hi
      exact h _ (by simp only [rawReadings, List.mem_map, List.mem_range]; exact ⟨i, hi, rfl⟩)
  have hv : ((read_light_sensor env s).1 : Int) = Int.tdiv (rawReadings env s).sum 10 := by
    simp only [read_light_sensor, toUInt32, hl]
    rw [Int.tdiv_eq_ediv (by omega) (by omega)]
    omega
  have hon : (is_light_on env s).1 = true ↔ 700 < ((read_light_sensor env s).1 : Int) := by
    simp only [is_light_on, LIGHT_THRESHOLD, gt_iff_lt, decide_eq_true_eq]
    omega
  rw [Int.tdiv_eq_ediv (by omega) (by omega)] at hv ⊢
  refine ⟨hv, ?_, ?_, ?_⟩
  · rw [hon, hv]
  · rw [hon, hv]; omega
  · intro h7
    cases hb : (is_light_on env s).1 with
    | false => rfl
    | true => rw [hon, hv] at hb; omega

/-- Witness of C13: five readings of 702 and five of 700, which sum to 7010. -/
theorem light_state_decision_witness :
    (rawReadings (fun i _ => if i < 5 then 702 else 700) ⟨0, 0, []⟩).sum = 7010 ∧
      (((read_light_sensor (fun i _ => if i < 5 then 702 else 700) ⟨0, 0, []⟩).1 : Int)
          = Int.tdiv (rawReadings (fun i _ => if i < 5 then 702 else 700) ⟨0, 0, []⟩).sum 10 ∧
        ((is_light_on (fun i _ => if i < 5 then 702 else 700) ⟨0, 0, []⟩).1 = true ↔
          700 < Int.tdiv (rawReadings (fun i _ => if i < 5 then 702 else 700) ⟨0, 0, []⟩).sum 10) ∧
        ((is_light_on (fun i _ => if i < 5 then 702 else 700) ⟨0, 0, []⟩).1 = true ↔
          7010 ≤ (rawReadings (fun i _ => if i < 5 then 702 else 700) ⟨0, 0, []⟩).sum) ∧
        (Int.tdiv (rawReadings (fun i _ => if i < 5 then 702 else 700) ⟨0, 0, []⟩).sum 10 = 700 →
          (is_light_on (fun i _ => if i < 5 then 702 else 700) ⟨0, 0, []⟩).1 = false)) :=
  ⟨by decide,
    light_state_decision (fun i _ => if i < 5 then 702 else 700) ⟨0, 0, []⟩ (by decide)⟩

/-! ## Lemmas on the host output -/

theorem format_02X_eq (b : Nat) (hb : b < 256) :
    format_02X b = [upperHexDigit (b / 16), upperHexDigit (b % 16)] := by
  interval_cases b <;> rfl

theorem upperHexDigit_mem (n : Nat) (hn : n < 16) : upperHexDigit n ∈ upperHexDigits := by
  interval_cases n <;> decide

theorem hexValue_upperHexDigit (n : Nat) (hn : n < 16) : hexValue (upperHexDigit n) = n := by
  interval_cases n <;> rfl

/-- C12 (host output format). For a byte `b`, the `printf` of receive.c:202 adds three
characters to the output: the upper-case hexadecimal digit of `b / 16`, that
of `b % 16`, and a newline; both digits are among 0-9 and A-F, reading them
in base 16 gives `b` back, and no other byte is written the same way. -/
theorem host_output_format (b : Nat) (s : RxState) (hb : b < 256) :
    (printf_02X_nl b s).out
        = s.out ++ [upperHexDigit (b / 16), upperHexDigit (b % 16), Char.ofNat 10] ∧
      upperHexDigit (b / 16) ∈ upperHexDigits ∧ upperHexDigit (b % 16) ∈ upperHexDigits ∧
      16 * hexValue (upperHexDigit (b / 16)) + hexValue (upperHexDigit (b % 16)) = b ∧
      ∀ b2, b2 < 256 → format_02X b2 = format_02X b → b2 = b := by
  have h1 : b / 16 < 16 := by omega
  have h2 : b % 16 < 16 := by omega
  refine ⟨by simp [printf_02X_nl, format_02X_eq b hb], upperHexDigit_mem _ h1,
    upperHexDigit_mem _ h2, ?_, ?_⟩
  · rw [hexValue_upperHexDigit _ h1, hexValue_upperHexDigit _ h2]; omega
  · intro b2 hb2 heq
    rw [format_02X_eq b hb, format_02X_eq b2 hb2] at heq
    simp only [List.cons.injEq, and_true] at heq
    have e1 := congrArg hexValue heq.1
    have e2 := congrArg hexValue heq.2
    rw [hexValue_upperHexDigit _ (by omega), hexValue_upperHexDigit _ h1] at e1
    rw [hexValue_upperHexDigit _ (by omega), hexValue_upperHexDigit _ h2] at e2
    omega

/-- Witness of C12: 0x4B is written as the characters 4, B and a newline. -/
theorem host_output_format_witness :
    [upperHexDigit (75 / 16), upperHexDigit (75 % 16), Char.ofNat 10]
        = ['4', 'B', Char.ofNat 10] ∧
      ((printf_02X_nl 75 ⟨0, 0, []⟩).out
          = [] ++ [upperHexDigit (75 / 16), upperHexDigit (75 % 16), Char.ofNat 10] ∧
        upperHexDigit (75 / 16) ∈ upperHexDigits ∧ upperHexDigit (75 % 16) ∈ upperHexDigits ∧
        16 * hexValue (upperHexDigit (75 / 16)) + hexValue (upperHexDigit (75 % 16)) = 75 ∧
        ∀ b2, b2 < 256 → format_02X b2 = format_02X 75 → b2 = 75) :=
  ⟨by decide, host_output_format 75 ⟨0, 0, []⟩ (by decide)⟩

/-! ## The contracts of the two polling primitives -/

/-- C14 (`wait_for_light_state` contract). For a timeout `t` of at most
4294967285 the wait makes at most `ceil(t / 10)` polls. If poll `k` is the first
that shows the expected state, it returns true at that poll, after `k` delays
and `k + 1` polls; if none of the `ceil(t / 10)` polls shows it, it returns
false after that many polls and delays (none when `t = 0`). So it returns true
exactly when one of those polls shows the expected state. -/
theorem wait_for_light_state_contract (fuel : Nat) (env : Sensor) (e : Bool) (t : Nat)
    (s : RxState) (ht : t ≤ 4294967285) (hfuel : (t + 9) / 10 < fuel) :
    (∀ k, k < (t + 9) / 10 → (∀ j, j < k → pollSample env s j ≠ e) → pollSample env s k = e →
        wait_for_light_state fuel env e t s
          = some (true, { s with now := s.now + 10 * k, reads := s.reads + 10 * (k + 1) })) ∧
      ((∀ j, j < (t + 9) / 10 → pollSample env s j ≠ e) →
        wait_for_light_state fuel env e t s
          = some (false,
            { s with now := s.now + 10 * ((t + 9) / 10), reads := s.reads + 10 * ((t + 9) / 10) })) ∧
      ∃ r, wait_for_light_state fuel env e t s = some r ∧
        (r.1 = true ↔ ∃ k, k < (t + 9) / 10 ∧ pollSample env s k = e) ∧
        r.2.reads ≤ s.reads + 10 * ((t + 9) / 10) ∧ r.2.out = s.out := by
  have hfound : ∀ k, k < (t + 9) / 10 → (∀ j, j < k → pollSample env s j ≠ e) →
      pollSample env s k = e →
      wait_for_light_state fuel env e t s = some (true, pollExit s k) := by
    intro k hk hne hk2
    unfold wait_for_light_state
    exact wait_loop_found env e t (by omega) k fuel 0 s (by omega) (by omega) hne hk2
  have hnone : (∀ j, j < (t + 9) / 10 → pollSample env s j ≠ e) →
      wait_for_light_state fuel env e t s = some (false, pollState s ((t + 9) / 10)) := by
    intro hne
    unfold wait_for_light_state
    exact wait_loop_timeout env e t (by omega) ((t + 9) / 10) fuel 0 s hfuel (by omega)
      (fun j hj => by omega) hne
  refine ⟨hfound, hnone, ?_⟩
  by_cases hex : ∃ k, k < (t + 9) / 10 ∧ pollSample env s k = e
  · have hk := Nat.find_spec hex
    have hmin : ∀ j, j < Nat.find hex → pollSample env s j ≠ e := by
      intro j hj hje
      exact Nat.find_min hex hj ⟨by omega, hje⟩
    refine ⟨_, hfound (Nat.find hex) hk.1 hmin hk.2, ?_, ?_, rfl⟩
    · simp only [true_iff]; exact hex
    · simp only [pollExit]; omega
  · have hne : ∀ j, j < (t + 9) / 10 → pollSample env s j ≠ e := by
      intro j hj hje
      exact hex ⟨j, hj, hje⟩
    refine ⟨_, hnone hne, ?_, ?_, rfl⟩
    · simp only [Bool.false_eq_true, false_iff]; exact hex
    · simp only [pollState]; omega

/-- Witness of C14: a 25 ms wait for ON on a light that comes on at 20 ms. -/
theorem wait_for_light_state_contract_witness :
    (∀ k, k < (25 + 9) / 10 →
        (∀ j, j < k → pollSample (idealSensor (fun t => decide (20 ≤ t))) ⟨0, 0, []⟩ j ≠ true) →
        pollSample (idealSensor (fun t => decide (20 ≤ t))) ⟨0, 0, []⟩ k = true →
        wait_for_light_state 4 (idealSensor (fun t => decide (20 ≤ t))) true 25 ⟨0, 0, []⟩
          = some (true, ⟨0 + 10 * k, 0 + 10 * (k + 1), []⟩)) ∧
      ((∀ j, j < (25 + 9) / 10 →
          pollSample (idealSensor (fun t => decide (20 ≤ t))) ⟨0, 0, []⟩ j ≠ true) →
        wait_for_light_state 4 (idealSensor (fun t => decide (20 ≤ t))) true 25 ⟨0, 0, []⟩
          = some (false, ⟨0 + 10 * ((25 + 9) / 10), 0 + 10 * ((25 + 9) / 10), []⟩)) ∧
      ∃ r, wait_for_light_state 4 (idealSensor (fun t => decide (20 ≤ t))) true 25 ⟨0, 0, []⟩
          = some r ∧
        (r.1 = true ↔ ∃ k, k < (25 + 9) / 10 ∧
          pollSample (idealSensor (fun t => decide (20 ≤ t))) ⟨0, 0, []⟩ k = true) ∧
        r.2.reads ≤ 0 + 10 * ((25 + 9) / 10) ∧ r.2.out = [] :=
  wait_for_light_state_contract 4 (idealSensor (fun t => decide (20 ≤ t))) true 25 ⟨0, 0, []⟩
    (by decide) (by decide)

/-- The measuring loop returns a duration that differs from the one it was
entered with by a multiple of 10, after at most `(2010 - duration) / 10`
polls. -/
theorem measure_loop_polls (env : Sensor) (st : Bool) :
    ∀ (fuel duration : Nat) (s : RxState), duration ≤ 2000 → 2001 ≤ 10 * fuel + duration →
      ∃ r, measure_light_duration_loop env st fuel duration s = some r ∧
        r.1 % 10 = duration % 10 ∧ r.2.reads + duration ≤ s.reads + r.1 + 10 ∧
        (2000 < r.1 → r.2.reads + duration = s.reads + r.1) := by
  intro fuel
  induction fuel with
  | zero => intro duration s h1 h2; omega
  | succ f ih =>
    intro duration s hd hf
    by_cases h0 : (is_light_on env s).1 = st
    · have hmod : (duration + SAMPLE_INTERVAL_MS) % 4294967296 = duration + 10 := by
        simp only [SAMPLE_INTERVAL_MS]; omega
      by_cases h2 : duration + 10 > 2000
      · refine ⟨(duration + 10, vTaskDelay SAMPLE_INTERVAL_MS (is_light_on env s).2), ?_, ?_, ?_,
          ?_⟩
        · simp [measure_light_duration_loop, h0, hmod, h2]
        · simp only; omega
        · simp only [vTaskDelay, is_light_on_state]; omega
        · intro _; simp only [vTaskDelay, is_light_on_state]; omega
      · obtain ⟨r, hr, hm, hp, hq⟩ := ih (duration + 10)
          (vTaskDelay SAMPLE_INTERVAL_MS (is_light_on env s).2) (by omega) (by omega)
        refine ⟨r, ?_, by omega, ?_, ?_⟩
        · simp only [measure_light_duration_loop, h0, beq_self_eq_true, if_true, hmod, h2,
            if_false]
          exact hr
        · simp only [vTaskDelay, is_light_on_state] at hp; omega
        · intro h; have := hq h; simp only [vTaskDelay, is_light_on_state] at this; omega
    · refine ⟨(duration, (is_light_on env s).2), by simp [measure_light_duration_loop, h0], rfl,
        ?_, ?_⟩
      · simp only [is_light_on_state]; omega
      · intro h; simp only at h; omega

/-- C15 (`measure_light_duration` value and termination). With fuel for 201
polls the measurement returns after at most 201 polls (ten conversions each)
and the duration it returns is a multiple of 10; when polls `0 .. n-1` show
the state and poll `n` does not, `n ≤ 200`, it returns `10 * n` (0 when the
first poll differs), after `n` delays and `n + 1` polls. -/
theorem measure_light_duration_contract (fuel : Nat) (env : Sensor) (st : Bool) (s : RxState)
    (hfuel : 201 ≤ fuel) :
    (∃ r, measure_light_duration fuel env st s = some r ∧ r.2.reads ≤ s.reads + 10 * 201 ∧
        r.1 % 10 = 0 ∧ r.2.out = s.out) ∧
      (∀ n, n ≤ 200 → (∀ j, j < n → pollSample env s j = st) → pollSample env s n ≠ st →
        measure_light_duration fuel env st s
          = some (10 * n, { s with now := s.now + 10 * n, reads := s.reads + 10 * (n + 1) })) := by
  constructor
  · obtain ⟨r, hr, hm, hp, hq⟩ := measure_loop_polls env st fuel 0 s (by omega) (by omega)
    obtain ⟨r2, hr2, hle, ho⟩ := measure_light_duration_total fuel env st s hfuel
    unfold measure_light_duration at hr2 ⊢
    have e : r2 = r := by rw [hr] at hr2; exact (Option.some.inj hr2).symm
    subst e
    refine ⟨r2, hr, ?_, by omega, ho⟩
    by_cases h : 2000 < r2.1
    · have := hq h; omega
    · omega
  · intro n hn heq hne
    unfold measure_light_duration
    rw [measure_loop_change env st n fuel 0 s (by omega) (by omega) heq hne]
    simp [pollExit]

/-- Witness of C15: a light that is on until 30 ms is measured as 30 ms. -/
theorem measure_light_duration_contract_witness :
    (∃ r, measure_light_duration 201 (idealSensor (fun t => decide (t < 30))) true ⟨0, 0, []⟩
          = some r ∧
        r.2.reads ≤ 0 + 10 * 201 ∧ r.1 % 10 = 0 ∧ r.2.out = []) ∧
      (∀ n, n ≤ 200 →
        (∀ j, j < n → pollSample (idealSensor (fun t => decide (t < 30))) ⟨0, 0, []⟩ j = true) →
        pollSample (idealSensor (fun t => decide (t < 30))) ⟨0, 0, []⟩ n ≠ true →
        measure_light_duration 201 (idealSensor (fun t => decide (t < 30))) true ⟨0, 0, []⟩
          = some (10 * n, ⟨0 + 10 * n, 0 + 10 * (n + 1), []⟩)) :=
  measure_light_duration_contract 201 (idealSensor (fun t => decide (t < 30))) true ⟨0, 0, []⟩
    (by decide)

/-! ## Mid-slot sampling -/

/-- A `read_byte` whose first sample, 50 ms after it starts, falls `u` ms into
the first of eight 100 ms slots that carry the bits of `b`, MSB first, reads
the levels `transmit_byte b` drives. -/
theorem bitSamples_of_slots (b S u : Nat) (env : Sensor) (light : Nat → Bool) (s : RxState)
    (henv : NoiseFree env light) (hs : s.now + 50 = S + u) (hu : u < 100)
    (hslot : ∀ i, i < 8 → ∀ t, S + 100 * i ≤ t → t < S + 100 * i + 100 →
      light t = ((b >>> (7 - i)) &&& 1 != 0)) :
    bitSamples env 8 s = drivenLevels b := by
  rw [bitSamples_noiseFree env _ henv, drivenLevels_eq, range_eight]
  simp only [List.map_cons, List.map_nil]
  rw [hslot 0 (by omega) _ (by omega) (by omega), hslot 1 (by omega) _ (by omega) (by omega),
    hslot 2 (by omega) _ (by omega) (by omega), hslot 3 (by omega) _ (by omega) (by omega),
    hslot 4 (by omega) _ (by omega) (by omega), hslot 5 (by omega) _ (by omega) (by omega),
    hslot 6 (by omega) _ (by omega) (by omega), hslot 7 (by omega) _ (by omega) (by omega)]
  simp only [bit_ite]

theorem txFrame_slot (b k : Nat) (hk : k < 8) :
    (txFrame b).trace.get? (2 + k) = some ((b >>> (7 - k)) &&& 1, 100) ∧
      holdStart (txFrame b).trace (2 + k) = 800 + 100 * k := by
  rw [txFrame_trace]
  interval_cases k <;> exact ⟨rfl, by simp [holdStart]⟩

/-- C16 (mid-slot sampling tolerates jitter). Data slot `k` of the frame for
`b` is hold `2 + k` of the transmitter, which begins `800 + 100 * k` ms after
the START pulse rose and lasts 100 ms. `read_byte` polls the light for its
`k`-th bit `50 + 100 * k` ms after it starts and returns after 800 ms. If it
starts `j` ms after the first data slot began, `-50 ≤ j < 50`, each of its
polls falls inside its own slot and it returns `b`. -/
theorem mid_slot_sampling (b R : Nat) (j : Int) (env : Sensor) (s : RxState) (hb : b < 256)
    (hj1 : -50 ≤ j) (hj2 : j < 50) (hs : (s.now : Int) = R + 800 + j)
    (henv : NoiseFree env (frameLight b R)) :
    (∀ k, k < 8 →
        (txFrame b).trace.get? (2 + k) = some ((b >>> (7 - k)) &&& 1, 100) ∧
        holdStart (txFrame b).trace (2 + k) = 800 + 100 * k ∧
        (bitState s k).now = s.now + 50 + 100 * k ∧
        R + (800 + 100 * k) ≤ (bitState s k).now ∧
        (bitState s k).now < R + (800 + 100 * k) + 100) ∧
      bitSamples env 8 s = (List.range 8).map (bitSampleAt env s) ∧
      (read_byte env s).2.now = s.now + 800 ∧
      (read_byte env s).1 = b := by
  refine ⟨?_, bitSamples_eq env 8 s, by simp [read_byte_state], ?_⟩
  · intro k hk
    refine ⟨(txFrame_slot b k hk).1, (txFrame_slot b k hk).2, ?_, ?_, ?_⟩ <;>
      simp only [bitState] <;> omega
  · obtain ⟨u, hu⟩ : ∃ u : Nat, (u : Int) = j + 50 := ⟨(j + 50).toNat, by omega⟩
    apply read_byte_of_samples b env s hb
    apply bitSamples_of_slots b (R + 800) u env (frameLight b R) s henv (by omega) (by omega)
    intro i hi t h1 h2
    exact frameLight_slot b R t i hi (by omega) (by omega)

/-- Witness of C16: a `read_byte` for 0xA5 that starts 50 ms before the first
data slot, the earliest offset allowed. -/
theorem mid_slot_sampling_witness :
    (∀ k, k < 8 →
        (txFrame 165).trace.get? (2 + k) = some ((165 >>> (7 - k)) &&& 1, 100) ∧
        holdStart (txFrame 165).trace (2 + k) = 800 + 100 * k ∧
        (bitState ⟨1750, 0, []⟩ k).now = 1750 + 50 + 100 * k ∧
        1000 + (800 + 100 * k) ≤ (bitState ⟨1750, 0, []⟩ k).now ∧
        (bitState ⟨1750, 0, []⟩ k).now < 1000 + (800 + 100 * k) + 100) ∧
      bitSamples (idealSensor (frameLight 165 1000)) 8 ⟨1750, 0, []⟩
        = (List.range 8).map (bitSampleAt (idealSensor (frameLight 165 1000)) ⟨1750, 0, []⟩) ∧
      (read_byte (idealSensor (frameLight 165 1000)) ⟨1750, 0, []⟩).2.now = 1750 + 800 ∧
      (read_byte (idealSensor (frameLight 165 1000)) ⟨1750, 0, []⟩).1 = 165 :=
  mid_slot_sampling 165 1000 (-50) (idealSensor (frameLight 165 1000)) ⟨1750, 0, []⟩
    (by decide) (by decide) (by decide) (by decide) (idealSensor_noiseFree _)

/-! ## Marker detection on a pulse joined late -/

/-- A detector whose first lit poll, poll `k`, falls `d` ms after the rise of a
pulse of `L` ms that is followed by at least 10 ms of dark: the pulse is
measured as `10 * ceil((L - d) / 10)` and the detector is left less than 10 ms
after the pulse fell. -/
theorem detect_frame_late (test : Nat → Bool) (T fuel : Nat) (env : Sensor) (light : Nat → Bool)
    (s : RxState) (k P L d : Nat) (henv : NoiseFree env light) (hT : T ≤ 4294967296)
    (hk : k < fuel) (hkT : 10 * k < T) (hfuel : 201 ≤ fuel) (hP : P + d = s.now + 10 * k)
    (hd : d < L) (hL : L ≤ 2000)
    (hdark : ∀ j, j < k → light (s.now + 10 * j) = false)
    (hon : ∀ t, P ≤ t → t < P + L → light t = true)
    (hoff : ∀ t, P + L ≤ t → t < P + L + 10 → light t = false) :
    detect_frame test T fuel env s
        = some (test (10 * ((L - d + 9) / 10)), pollExit (pollExit s k) ((L - d + 9) / 10)) ∧
      P + L ≤ (pollExit (pollExit s k) ((L - d + 9) / 10)).now ∧
      (pollExit (pollExit s k) ((L - d + 9) / 10)).now < P + L + 10 := by
  have hp := pollSample_noiseFree env _ henv
  have h1 : (pollExit s k).now = P + d := by simp only [pollExit]; omega
  refine ⟨?_, ?_, ?_⟩
  · apply detect_frame_pulse test T fuel env s k ((L - d + 9) / 10) hT hk (by omega) hkT
      (by omega)
    · intro j hj
      rw [hp]; exact hdark j hj
    · rw [hp]; exact hon _ (by omega) (by omega)
    · intro j hj
      rw [hp, h1]; exact hon _ (by omega) (by omega)
    · rw [hp, h1]; exact hoff _ (by omega) (by omega)
  · simp only [pollExit]; omega
  · simp only [pollExit]; omega

/-! ## Lemmas on the light of two back-to-back frames -/

theorem txPair_trace (b1 b2 R : Nat) :
    (txPair b1 b2 R).trace =
      [(0, R), (1, 700), (0, 100), ((b1 >>> 7) &&& 1, 100), ((b1 >>> 6) &&& 1, 100),
        ((b1 >>> 5) &&& 1, 100), ((b1 >>> 4) &&& 1, 100), ((b1 >>> 3) &&& 1, 100),
        ((b1 >>> 2) &&& 1, 100), ((b1 >>> 1) &&& 1, 100), ((b1 >>> 0) &&& 1, 100),
        (0, 100), (1, 1000), (0, 0), (1, 700), (0, 100), ((b2 >>> 7) &&& 1, 100),
        ((b2 >>> 6) &&& 1, 100), ((b2 >>> 5) &&& 1, 100), ((b2 >>> 4) &&& 1, 100),
        ((b2 >>> 3) &&& 1, 100), ((b2 >>> 2) &&& 1, 100), ((b2 >>> 1) &&& 1, 100),
        ((b2 >>> 0) &&& 1, 100), (0, 100), (1, 1000)] := by
  simp only [txPair, Transmit.app_main, transmit_app_main_body_trace, Transmit.uart_read_bytes,
    transmit_app_main_body_level, txIdle]
  rfl

theorem pairLight_eq (b1 b2 R t : Nat) :
    pairLight b1 b2 R t = (levelAt (txPair b1 b2 R).trace 0 t != 0) := rfl

theorem pairLight_before (b1 b2 R t : Nat) (h : t < R) : pairLight b1 b2 R t = false := by
  rw [pairLight_eq, levelAt_hold 0 _ 0 t 0 R (by rw [txPair_trace]; rfl)
    (by simp [holdStart]) (by simp [holdStart]; omega)]
  rfl

theorem pairLight_start (b1 b2 R t : Nat) (h1 : R ≤ t) (h2 : t < R + 700) :
    pairLight b1 b2 R t = true := by
  rw [pairLight_eq, levelAt_hold 0 _ 1 t 1 700 (by rw [txPair_trace]; rfl)
    (by simp [holdStart, txPair_trace]; omega) (by simp [holdStart, txPair_trace]; omega)]
  rfl

theorem pairLight_gap1 (b1 b2 R t : Nat) (h1 : R + 700 ≤ t) (h2 : t < R + 800) :
    pairLight b1 b2 R t = false := by
  rw [pairLight_eq, levelAt_hold 0 _ 2 t 0 100 (by rw [txPair_trace]; rfl)
    (by simp [holdStart, txPair_trace]; omega) (by simp [holdStart, txPair_trace]; omega)]
  rfl

theorem pairLight_slot (b1 b2 R t i : Nat) (hi : i < 8) (h1 : R + 800 + 100 * i ≤ t)
    (h2 : t < R + 800 + 100 * i + 100) :
    pairLight b1 b2 R t = ((b1 >>> (7 - i)) &&& 1 != 0) := by
  have h : levelAt (txPair b1 b2 R).trace 0 t = (b1 >>> (7 - i)) &&& 1 := by
    interval_cases i
    · exact levelAt_hold 0 _ 3 t _ 100 (by rw [txPair_trace]; rfl)
        (by simp [holdStart, txPair_trace]; omega) (by simp [holdStart, txPair_trace]; omega)
    · exact levelAt_hold 0 _ 4 t _ 100 (by rw [txPair_trace]; rfl)
        (by simp [holdStart, txPair_trace]; omega) (by simp [holdStart, txPair_trace]; omega)
    · exact levelAt_hold 0 _ 5 t _ 100 (by rw [txPair_trace]; rfl)
        (by simp [holdStart, txPair_trace]; omega) (by simp [holdStart, txPair_trace]; omega)
    · exact levelAt_hold 0 _ 6 t _ 100 (by rw [txPair_trace]; rfl)
        (by simp [holdStart, txPair_trace]; omega) (by simp [holdStart, txPair_trace]; omega)
    · exact levelAt_hold 0 _ 7 t _ 100 (by rw [txPair_trace]; rfl)
        (by simp [holdStart, txPair_trace]; omega) (by simp [holdStart, txPair_trace]; omega)
    · exact levelAt_hold 0 _ 8 t _ 100 (by rw [txPair_trace]; rfl)
        (by simp [holdStart, txPair_trace]; omega) (by simp [holdStart, txPair_trace]; omega)
    · exact levelAt_hold 0 _ 9 t _ 100 (by rw [txPair_trace]; rfl)
        (by simp [holdStart, txPair_trace]; omega) (by simp [holdStart, txPair_trace]; omega)
    · exact levelAt_hold 0 _ 10 t _ 100 (by rw [txPair_trace]; rfl)
        (by simp [holdStart, txPair_trace]; omega) (by simp [holdStart, txPair_trace]; omega)
  rw [pairLight_eq, h]

theorem pairLight_gap2 (b1 b2 R t : Nat) (h1 : R + 1600 ≤ t) (h2 : t < R + 1700) :
    pairLight b1 b2 R t = false := by
  rw [pairLight_eq, levelAt_hold 0 _ 11 t 0 100 (by rw [txPair_trace]; rfl)
    (by simp [holdStart, txPair_trace]; omega) (by simp [holdStart, txPair_trace]; omega)]
  rfl

/-- The STOP pulse of the first frame and the START pulse of the second are
lit without a break: 1700 ms in all. -/
theorem pairLight_merged (b1 b2 R t : Nat) (h1 : R + 1700 ≤ t) (h2 : t < R + 3400) :
    pairLight b1 b2 R t = true := by
  rw [pairLight_eq]
  by_cases h : t < R + 2700
  · rw [levelAt_hold 0 _ 12 t 1 1000 (by rw [txPair_trace]; rfl)
      (by simp [holdStart, txPair_trace]; omega) (by simp [holdStart, txPair_trace]; omega)]
    rfl
  · rw [levelAt_hold 0 _ 14 t 1 700 (by rw [txPair_trace]; rfl)
      (by simp [holdStart, txPair_trace]; omega) (by simp [holdStart, txPair_trace]; omega)]
    rfl

theorem pairLight_gap3 (b1 b2 R t : Nat) (h1 : R + 3400 ≤ t) (h2 : t < R + 3500) :
    pairLight b1 b2 R t = false := by
  rw [pairLight_eq, levelAt_hold 0 _ 15 t 0 100 (by rw [txPair_trace]; rfl)
    (by simp [holdStart, txPair_trace]; omega) (by simp [holdStart, txPair_trace]; omega)]
  rfl

/-- C17 (back-to-back frames merge their markers). When the host has the
second byte ready, the trace of the transmitter is the first frame, an OFF
hold of 0 ms, and the second frame, so the light is on without a break from
the rise of the first STOP pulse for 1700 ms, with dark before and after.
1700 passes neither window test. A receiver that joins the first frame as in
C1 detects START and reads `b1`, but `detect_stop_frame` measures 1700 ms and
returns false, and the cycle writes nothing. -/
theorem back_to_back_frames (b1 b2 d k R fuel : Nat) (env : Sensor) (s : RxState)
    (hb1 : b1 < 256) (hd : d < 10) (hk : k < 1000) (hR : R + d = s.now + 10 * k)
    (hfuel : 1001 ≤ fuel) (henv : NoiseFree env (pairLight b1 b2 R)) :
    (txPair b1 b2 R).trace = [(0, R)] ++ (txFrame b1).trace ++ [(0, 0)] ++ (txFrame b2).trace ∧
      (∀ t, R + 1600 ≤ t → t < R + 1700 → pairLight b1 b2 R t = false) ∧
      (∀ t, R + 1700 ≤ t → t < R + 3400 → pairLight b1 b2 R t = true) ∧
      (∀ t, R + 3400 ≤ t → t < R + 3500 → pairLight b1 b2 R t = false) ∧
      start_frame_test 1700 = false ∧ stop_frame_test 1700 = false ∧
      ∃ s1 s3 s4, detect_start_frame fuel env s = some (true, s1) ∧
        read_byte env (vTaskDelay BIT_DURATION_MS s1) = (b1, s3) ∧
        measure_light_duration fuel env true (pollExit (vTaskDelay BIT_DURATION_MS s3) 0)
          = some (1700, s4) ∧
        detect_stop_frame fuel env (vTaskDelay BIT_DURATION_MS s3) = some (false, s4) ∧
        app_main_body fuel env s = some (vTaskDelay 500 s4) ∧
        (vTaskDelay 500 s4).out = s.out := by
  refine ⟨by rw [txPair_trace, txFrame_trace, txFrame_trace]; rfl,
    fun t h1 h2 => pairLight_gap2 b1 b2 R t h1 h2,
    fun t h1 h2 => pairLight_merged b1 b2 R t h1 h2,
    fun t h1 h2 => pairLight_gap3 b1 b2 R t h1 h2, by decide, by decide, ?_⟩
  have hn1 : (700 - d + 9) / 10 = 70 := by omega
  have hn2 : (1700 - d + 9) / 10 = 170 := by omega
  obtain ⟨hstart, _, _⟩ := detect_frame_late start_frame_test 10000 fuel env
    (pairLight b1 b2 R) s k R 700 d henv (by omega) (by omega) (by omega) (by omega) hR
    (by omega) (by omega)
    (fun j hj => pairLight_before b1 b2 R _ (by omega))
    (fun t h1 h2 => pairLight_start b1 b2 R t h1 h2)
    (fun t h1 h2 => pairLight_gap1 b1 b2 R t h1 (by omega))
  have htest1 : start_frame_test (10 * 70) = true := by decide
  rw [← detect_start_frame_eq, hn1, htest1] at hstart
  have hnow2 : (vTaskDelay BIT_DURATION_MS (pollExit (pollExit s k) 70)).now + 50
      = R + 800 + (d + 50) := by
    simp only [vTaskDelay, pollExit, BIT_DURATION_MS]; omega
  have hval : (read_byte env (vTaskDelay BIT_DURATION_MS (pollExit (pollExit s k) 70))).1 = b1 :=
    read_byte_of_samples b1 env _ hb1
      (bitSamples_of_slots b1 (R + 800) (d + 50) env _ _ henv hnow2 (by omega)
        (fun i hi t h1 h2 => pairLight_slot b1 b2 R t i hi h1 h2))
  have hnow3 : R + 1700 + d = (vTaskDelay BIT_DURATION_MS
      (read_byte env (vTaskDelay BIT_DURATION_MS (pollExit (pollExit s k) 70))).2).now
        + 10 * 0 := by
    rw [read_byte_state]
    simp only [vTaskDelay, BIT_DURATION_MS] at hnow2 ⊢
    omega
  have hmeas : measure_light_duration fuel env true (pollExit (vTaskDelay BIT_DURATION_MS
      (read_byte env (vTaskDelay BIT_DURATION_MS (pollExit (pollExit s k) 70))).2) 0)
        = some (0 + 10 * 170, pollExit (pollExit (vTaskDelay BIT_DURATION_MS
          (read_byte env (vTaskDelay BIT_DURATION_MS (pollExit (pollExit s k) 70))).2) 0) 170) := by
    have hp := pollSample_noiseFree env _ henv
    have h1 : (pollExit (vTaskDelay BIT_DURATION_MS
        (read_byte env (vTaskDelay BIT_DURATION_MS (pollExit (pollExit s k) 70))).2) 0).now
          = R + 1700 + d := hnow3.symm
    unfold measure_light_duration
    apply measure_loop_change env true 170 fuel 0 _ (by omega) (by omega)
    · intro j hj
      rw [hp, h1]; exact pairLight_merged b1 b2 R _ (by omega) (by omega)
    · rw [hp, h1, pairLight_gap3 b1 b2 R _ (by omega) (by omega)]
      simp
  obtain ⟨hstop, _, _⟩ := detect_frame_late stop_frame_test 2000 fuel env
    (pairLight b1 b2 R) _ 0 (R + 1700) 1700 d henv (by omega) (by omega) (by omega) (by omega)
    hnow3 (by omega) (by omega) (fun j hj => by omega)
    (fun t h1 h2 => pairLight_merged b1 b2 R t h1 (by omega))
    (fun t h1 h2 => pairLight_gap3 b1 b2 R t (by omega) (by omega))
  rw [← detect_stop_frame_eq, hn2] at hstop
  have htest : stop_frame_test (10 * 170) = false := by decide
  rw [htest] at hstop
  refine ⟨_, _, _, hstart, Prod.ext hval rfl, hmeas, hstop, ?_, ?_⟩
  · simp only [app_main_body, hstart, hstop]
  · simp [vTaskDelay, pollExit, read_byte_state]

/-- Witness of C17: 0x4B followed at once by 0xA5, joined as in the witness of
C1. -/
theorem back_to_back_frames_witness :
    (txPair 75 165 995).trace
        = [(0, 995)] ++ (txFrame 75).trace ++ [(0, 0)] ++ (txFrame 165).trace ∧
      (∀ t, 995 + 1600 ≤ t → t < 995 + 1700 → pairLight 75 165 995 t = false) ∧
      (∀ t, 995 + 1700 ≤ t → t < 995 + 3400 → pairLight 75 165 995 t = true) ∧
      (∀ t, 995 + 3400 ≤ t → t < 995 + 3500 → pairLight 75 165 995 t = false) ∧
      start_frame_test 1700 = false ∧ stop_frame_test 1700 = false ∧
      ∃ s1 s3 s4,
        detect_start_frame 1001 (idealSensor (pairLight 75 165 995)) ⟨0, 0, []⟩
          = some (true, s1) ∧
        read_byte (idealSensor (pairLight 75 165 995)) (vTaskDelay BIT_DURATION_MS s1)
          = (75, s3) ∧
        measure_light_duration 1001 (idealSensor (pairLight 75 165 995)) true
          (pollExit (vTaskDelay BIT_DURATION_MS s3) 0) = some (1700, s4) ∧
        detect_stop_frame 1001 (idealSensor (pairLight 75 165 995))
          (vTaskDelay BIT_DURATION_MS s3) = some (false, s4) ∧
        app_main_body 1001 (idealSensor (pairLight 75 165 995)) ⟨0, 0, []⟩
          = some (vTaskDelay 500 s4) ∧
        (vTaskDelay 500 s4).out = [] :=
  back_to_back_frames 75 165 5 100 995 1001 (idealSensor (pairLight 75 165 995)) ⟨0, 0, []⟩
    (by decide) (by decide) (by decide) (by decide) (by decide) (idealSensor_noiseFree _)

/-! ## Markers joined late -/

/-- A measurement that begins `d` ms after the rise of a pulse of `L` ms that
is followed by at least 10 ms of dark returns `10 * ceil((L - d) / 10)`. -/
theorem measure_on_pulse (fuel : Nat) (env : Sensor) (light : Nat → Bool) (s : RxState)
    (P L d : Nat) (henv : NoiseFree env light) (hfuel : 201 ≤ fuel) (hP : s.now = P + d)
    (hd : d < L) (hL : L ≤ 2000) (hon : ∀ t, P ≤ t → t < P + L → light t = true)
    (hoff : ∀ t, P + L ≤ t → t < P + L + 10 → light t = false) :
    measure_light_duration fuel env true s
      = some (10 * ((L - d + 9) / 10), pollExit s ((L - d + 9) / 10)) := by
  have hp := pollSample_noiseFree env _ henv
  unfold measure_light_duration
  rw [measure_loop_change env true ((L - d + 9) / 10) fuel 0 s (by omega) (by omega)]
  · simp
  · intro j hj
    rw [hp, hP]; exact hon _ (by omega) (by omega)
  · rw [hp, hP, hoff _ (by omega) (by omega)]
    simp

theorem start_frame_test_late (d : Nat) (hd : d < 700) :
    start_frame_test (10 * ((700 - d + 9) / 10)) = decide (d < 110) := by
  rw [Bool.eq_iff_iff]
  simp only [start_frame_test, START_FRAME_MIN_MS, START_FRAME_MAX_MS, Bool.and_eq_true,
    decide_eq_true_eq, ge_iff_le]
  omega

theorem start_frame_test_late_stop (d : Nat) (hd : d < 1000) :
    start_frame_test (10 * ((1000 - d + 9) / 10)) = decide (200 ≤ d ∧ d < 410) := by
  rw [Bool.eq_iff_iff]
  simp only [start_frame_test, START_FRAME_MIN_MS, START_FRAME_MAX_MS, Bool.and_eq_true,
    decide_eq_true_eq, ge_iff_le]
  omega

/-- The rest of the receiver cycle once `detect_start_frame` has succeeded and
left the receiver `u < 10` ms after the START pulse of an isolated frame for
`b` fell: `b` is written. -/
theorem app_main_body_after_start (b R u fuel : Nat) (env : Sensor) (s s1 : RxState)
    (hb : b < 256) (hu : u < 10) (hfuel : 1001 ≤ fuel) (henv : NoiseFree env (frameLight b R))
    (hstart : detect_start_frame fuel env s = some (true, s1)) (hnow : s1.now = R + 700 + u)
    (hout : s1.out = s.out) :
    ∃ s2, app_main_body fuel env s = some s2 ∧
      s2.out = s.out ++ (format_02X b ++ [Char.ofNat 10]) := by
  have hnow2 : (vTaskDelay BIT_DURATION_MS s1).now + 50 = R + 800 + (u + 50) := by
    simp only [vTaskDelay, BIT_DURATION_MS]; omega
  have hval : (read_byte env (vTaskDelay BIT_DURATION_MS s1)).1 = b :=
    read_byte_of_samples b env _ hb
      (bitSamples_of_slots b (R + 800) (u + 50) env _ _ henv hnow2 (by omega)
        (fun i hi t h1 h2 => frameLight_slot b R t i hi h1 (by omega)))
  have hnow3 : (vTaskDelay BIT_DURATION_MS (read_byte env (vTaskDelay BIT_DURATION_MS s1)).2).now
      = R + 1700 + u := by
    rw [read_byte_state]
    simp only [vTaskDelay, BIT_DURATION_MS]
    omega
  have hstop := detect_stop_frame_on_frame b u R fuel env _ hu hnow3 hfuel henv
  refine ⟨_, by simp only [app_main_body, hstart, hstop, hval]; rfl, ?_⟩
  simp [vTaskDelay, printf_02X_nl, pollExit, read_byte_state, hout]

/-- The receiver cycle once `detect_start_frame` has failed: nothing is
written. -/
theorem app_main_body_no_start (fuel : Nat) (env : Sensor) (s s1 : RxState)
    (hstart : detect_start_frame fuel env s = some (false, s1)) (hout : s1.out = s.out) :
    ∃ s2, app_main_body fuel env s = some s2 ∧ s2.out = s.out :=
  ⟨vTaskDelay 500 s1, by simp only [app_main_body, hstart], by simp [vTaskDelay, hout]⟩

/-- C18 (late-join tolerance of START detection). The first lit poll of the
receiver, poll `k`, falls `d < 700` ms after the rise of the START pulse of an
isolated frame for `b`. Then the pulse is measured as `10 * ceil((700 - d) / 10)`
and `detect_start_frame` returns true exactly when `d < 110`. For `d < 110` the
measurement ends less than 10 ms after the pulse fell and the cycle writes `b`;
for `110 ≤ d` the cycle writes nothing. -/
theorem late_join_tolerance (b d k R fuel : Nat) (env : Sensor) (s : RxState) (hb : b < 256)
    (hd : d < 700) (hk : k < 1000) (hR : R + d = s.now + 10 * k)
    (hfirst : ∀ j, j < k → s.now + 10 * j < R) (hfuel : 1001 ≤ fuel)
    (henv : NoiseFree env (frameLight b R)) :
    ∃ s1, measure_light_duration fuel env true (pollExit s k)
          = some (10 * ((700 - d + 9) / 10), s1) ∧
      detect_start_frame fuel env s = some (decide (d < 110), s1) ∧
      (d < 110 → R + 700 ≤ s1.now ∧ s1.now < R + 700 + 10 ∧
        ∃ s2, app_main_body fuel env s = some s2 ∧
          s2.out = s.out ++ (format_02X b ++ [Char.ofNat 10])) ∧
      (110 ≤ d → ∃ s2, app_main_body fuel env s = some s2 ∧ s2.out = s.out) := by
  obtain ⟨hdet, hlo, hhi⟩ := detect_frame_late start_frame_test 10000 fuel env
    (frameLight b R) s k R 700 d henv (by omega) (by omega) (by omega) (by omega) hR hd
    (by omega) (fun j hj => frameLight_before b R _ (hfirst j hj))
    (fun t h1 h2 => frameLight_start b R t h1 h2)
    (fun t h1 h2 => frameLight_gap1 b R t h1 (by omega))
  rw [← detect_start_frame_eq, start_frame_test_late d hd] at hdet
  have hmeas := measure_on_pulse fuel env (frameLight b R) (pollExit s k) R 700 d henv
    (by omega) (by simp only [pollExit]; omega) hd (by omega)
    (fun t h1 h2 => frameLight_start b R t h1 h2)
    (fun t h1 h2 => frameLight_gap1 b R t h1 (by omega))
  refine ⟨_, hmeas, hdet, ?_, ?_⟩
  · intro h
    have hdec : decide (d < 110) = true := by simp [h]
    rw [hdec] at hdet
    exact ⟨hlo, hhi, app_main_body_after_start b R
      ((pollExit (pollExit s k) ((700 - d + 9) / 10)).now - (R + 700)) fuel env s _ hb
      (by omega) hfuel henv hdet (by omega) rfl⟩
  · intro h
    have hdec : decide (d < 110) = false := by simp; omega
    rw [hdec] at hdet
    exact app_main_body_no_start fuel env s _ hdet rfl

/-- Witness of C18: a receiver that wakes up 109 ms into the START pulse of
the frame for 0xA5, the latest join that is still accepted. -/
theorem late_join_tolerance_witness :
    ∃ s1, measure_light_duration 1001 (idealSensor (frameLight 165 1000)) true
          (pollExit ⟨1109, 0, []⟩ 0) = some (10 * ((700 - 109 + 9) / 10), s1) ∧
      detect_start_frame 1001 (idealSensor (frameLight 165 1000)) ⟨1109, 0, []⟩
        = some (decide (109 < 110), s1) ∧
      (109 < 110 → 1000 + 700 ≤ s1.now ∧ s1.now < 1000 + 700 + 10 ∧
        ∃ s2, app_main_body 1001 (idealSensor (frameLight 165 1000)) ⟨1109, 0, []⟩ = some s2 ∧
          s2.out = [] ++ (format_02X 165 ++ [Char.ofNat 10])) ∧
      (110 ≤ 109 →
        ∃ s2, app_main_body 1001 (idealSensor (frameLight 165 1000)) ⟨1109, 0, []⟩ = some s2 ∧
          s2.out = []) :=
  late_join_tolerance 165 109 0 1000 1001 (idealSensor (frameLight 165 1000)) ⟨1109, 0, []⟩
    (by decide) (by decide) (by decide) (by decide) (fun j hj => absurd hj (by omega))
    (by decide) (idealSensor_noiseFree _)

/-- A `read_byte` made while the light stays off returns 0. -/
theorem read_byte_dark (env : Sensor) (light : Nat → Bool) (s : RxState)
    (henv : NoiseFree env light) (h : ∀ t, s.now ≤ t → light t = false) :
    (read_byte env s).1 = 0 := by
  have hl : ∀ i, light (s.now + 100 * i + 50) = false := fun i => h _ (by omega)
  rw [read_byte, read_byte_loop_value, bitSamples_noiseFree env light henv, range_eight]
  simp only [List.map_cons, List.map_nil, hl, Bool.false_eq_true, if_false]
  rfl

/-- C19 (a STOP marker joined late is accepted as START). The first lit poll
of a receiver in `detect_start_frame`, poll `k`, falls `d < 1000` ms after the
rise of the STOP pulse of an isolated frame. Then the pulse is measured as
`10 * ceil((1000 - d) / 10)` and `detect_start_frame` returns true exactly
when `200 ≤ d < 410`. In that case `read_byte` returns 0, the 2000 ms wait of
`detect_stop_frame` times out after 200 polls, and the cycle writes nothing. -/
theorem stop_joined_late (b d k R fuel : Nat) (env : Sensor) (s : RxState) (hd : d < 1000)
    (hk : k < 1000) (hR : R + 1700 + d = s.now + 10 * k)
    (hfirst : ∀ j, j < k → frameLight b R (s.now + 10 * j) = false) (hfuel : 1001 ≤ fuel)
    (henv : NoiseFree env (frameLight b R)) :
    ∃ s1, measure_light_duration fuel env true (pollExit s k)
          = some (10 * ((1000 - d + 9) / 10), s1) ∧
      detect_start_frame fuel env s = some (decide (200 ≤ d ∧ d < 410), s1) ∧
      (200 ≤ d → d < 410 →
        (read_byte env (vTaskDelay BIT_DURATION_MS s1)).1 = 0 ∧
        wait_for_light_state fuel env true 2000
            (vTaskDelay BIT_DURATION_MS (read_byte env (vTaskDelay BIT_DURATION_MS s1)).2)
          = some (false, pollState
            (vTaskDelay BIT_DURATION_MS (read_byte env (vTaskDelay BIT_DURATION_MS s1)).2) 200) ∧
        detect_stop_frame fuel env
            (vTaskDelay BIT_DURATION_MS (read_byte env (vTaskDelay BIT_DURATION_MS s1)).2)
          = some (false, pollState
            (vTaskDelay BIT_DURATION_MS (read_byte env (vTaskDelay BIT_DURATION_MS s1)).2) 200) ∧
        ∃ s2, app_main_body fuel env s = some s2 ∧ s2.out = s.out) := by
  obtain ⟨hdet, hlo, _⟩ := detect_frame_late start_frame_test 10000 fuel env
    (frameLight b R) s k (R + 1700) 1000 d henv (by omega) (by omega) (by omega) (by omega) hR hd
    (by omega) hfirst
    (fun t h1 h2 => frameLight_stop b R t h1 (by omega))
    (fun t h1 h2 => frameLight_after b R t (by omega))
  rw [← detect_start_frame_eq, start_frame_test_late_stop d hd] at hdet
  have hmeas := measure_on_pulse fuel env (frameLight b R) (pollExit s k) (R + 1700) 1000 d henv
    (by omega) (by simp only [pollExit]; omega) hd (by omega)
    (fun t h1 h2 => frameLight_stop b R t h1 (by omega))
    (fun t h1 h2 => frameLight_after b R t (by omega))
  refine ⟨_, hmeas, hdet, ?_⟩
  intro h1 h2
  have hdec : decide (200 ≤ d ∧ d < 410) = true := by simp [h1, h2]
  rw [hdec] at hdet
  have hp := pollSample_noiseFree env _ henv
  have hval : (read_byte env (vTaskDelay BIT_DURATION_MS
      (pollExit (pollExit s k) ((1000 - d + 9) / 10)))).1 = 0 := by
    apply read_byte_dark env (frameLight b R) _ henv
    intro t ht
    simp only [vTaskDelay] at ht
    exact frameLight_after b R t (by omega)
  have hnow : R + 2700 ≤ (vTaskDelay BIT_DURATION_MS (read_byte env (vTaskDelay BIT_DURATION_MS
      (pollExit (pollExit s k) ((1000 - d + 9) / 10)))).2).now := by
    rw [read_byte_state]
    simp only [vTaskDelay]
    omega
  have hdark : ∀ j, j < 200 → pollSample env (vTaskDelay BIT_DURATION_MS
      (read_byte env (vTaskDelay BIT_DURATION_MS
        (pollExit (pollExit s k) ((1000 - d + 9) / 10)))).2) j = false := by
    intro j _
    rw [hp]
    exact frameLight_after b R _ (by omega)
  have hwait : wait_for_light_state fuel env true 2000 (vTaskDelay BIT_DURATION_MS
      (read_byte env (vTaskDelay BIT_DURATION_MS
        (pollExit (pollExit s k) ((1000 - d + 9) / 10)))).2)
      = some (false, pollState (vTaskDelay BIT_DURATION_MS (read_byte env
        (vTaskDelay BIT_DURATION_MS (pollExit (pollExit s k) ((1000 - d + 9) / 10)))).2) 200) := by
    unfold wait_for_light_state
    exact wait_loop_timeout env true 2000 (by omega) 200 fuel 0 _ (by omega) (by omega)
      (fun j hj => by omega) (fun j hj => by simp [hdark j hj])
  have hstop := detect_frame_dark stop_frame_test 2000 fuel env _ 200 (by omega) (by omega) rfl
    hdark
  rw [← detect_stop_frame_eq] at hstop
  refine ⟨hval, hwait, hstop, _, by simp only [app_main_body, hdet, hstop]; rfl, ?_⟩
  simp [vTaskDelay, pollState, pollExit, read_byte_state]

/-- Witness of C19: a receiver that wakes up 300 ms into the STOP pulse of
the frame for 0xA5. -/
theorem stop_joined_late_witness :
    ∃ s1, measure_light_duration 1001 (idealSensor (frameLight 165 0)) true
          (pollExit ⟨2000, 0, []⟩ 0) = some (10 * ((1000 - 300 + 9) / 10), s1) ∧
      detect_start_frame 1001 (idealSensor (frameLight 165 0)) ⟨2000, 0, []⟩
        = some (decide (200 ≤ 300 ∧ 300 < 410), s1) ∧
      (200 ≤ 300 → 300 < 410 →
        (read_byte (idealSensor (frameLight 165 0)) (vTaskDelay BIT_DURATION_MS s1)).1 = 0 ∧
        wait_for_light_state 1001 (idealSensor (frameLight 165 0)) true 2000
            (vTaskDelay BIT_DURATION_MS
              (read_byte (idealSensor (frameLight 165 0)) (vTaskDelay BIT_DURATION_MS s1)).2)
          = some (false, pollState (vTaskDelay BIT_DURATION_MS
              (read_byte (idealSensor (frameLight 165 0)) (vTaskDelay BIT_DURATION_MS s1)).2)
            200) ∧
        detect_stop_frame 1001 (idealSensor (frameLight 165 0))
            (vTaskDelay BIT_DURATION_MS
              (read_byte (idealSensor (frameLight 165 0)) (vTaskDelay BIT_DURATION_MS s1)).2)
          = some (false, pollState (vTaskDelay BIT_DURATION_MS
              (read_byte (idealSensor (frameLight 165 0)) (vTaskDelay BIT_DURATION_MS s1)).2)
            200) ∧
        ∃ s2, app_main_body 1001 (idealSensor (frameLight 165 0)) ⟨2000, 0, []⟩ = some s2 ∧
          s2.out = []) :=
  stop_joined_late 165 300 0 0 1001 (idealSensor (frameLight 165 0)) ⟨2000, 0, []⟩
    (by decide) (by decide) (by decide) (fun j hj => absurd hj (by omega)) (by decide)
    (idealSensor_noiseFree _)

end LiFi
